import Mathlib

/-!
Verification of the result-classifier / narrative-generator core of the
camera-health digital twin (source: `src/agent/analyze.py`).

The Python module is shallowly embedded:
  * JSON-decoded Python values become the inductive type `JSON`
    (Python `int` and `float` are both modelled with exact rationals,
    in two separate constructors so that string rendering can keep the
    Python distinction, e.g. `str(0.0) = "0.0"` versus `str(0) = "0"`);
  * Python dicts become association lists (backend payloads have unique
    keys; lookup takes the first occurrence);
  * code that can raise a Python exception returns `Except PyErr`;
    the helpers `pyGetD`, `pct`, `fmtComma`, `fmtFixed`, `pyGE`, `pyLt`,
    `pyIter`, `pyJoin` ... model the raising behaviour of the
    corresponding Python operation on each value shape.
Python `float` repr / rounding is idealised over `ℚ` (round-half-even on
the exact value); every decimal literal occurring in the source is exactly
representable, so this does not change any behaviour the theorems touch.
-/

/-- A JSON-decoded Python value, as produced by `json` deserialisation of a
backend response (`analyze.py` receives such a value as `result: Any`). -/
inductive JSON : Type where
  | null
  | bool (b : Bool)
  | int (n : Int)
  | float (q : ℚ)
  | str (s : String)
  | arr (elems : List JSON)
  | obj (fields : List (String × JSON))

/-- Python exception kinds that the embedded operations can raise. -/
inductive PyErr : Type where
  | typeError
  | valueError
  | attributeError
  | zeroDivisionError
deriving DecidableEq

/-- First-occurrence lookup in an association list (Python dict access;
backend payloads have unique keys, so first- vs last-occurrence is moot). -/
def dictGet : List (String × JSON) → String → Option JSON
  | [], _ => none
  | (k, v) :: rest, key => if k = key then some v else dictGet rest key

/-- Python `key in dict`. -/
def hasKey (kvs : List (String × JSON)) (key : String) : Bool :=
  (dictGet kvs key).isSome

/-- Python `dict.get(key, default)`. -/
def dictGetD (kvs : List (String × JSON)) (key : String) (d : JSON) : JSON :=
  (dictGet kvs key).getD d

/-- Numeric view of a Python value: `bool` is an `int` subclass in Python,
so `True`/`False` act as `1`/`0` in arithmetic and comparisons. -/
def scalarNum? : JSON → Option ℚ
  | .bool b => some (if b then 1 else 0)
  | .int n => some (n : ℚ)
  | .float q => some q
  | _ => none

/-- Whether a value supports Python numeric arithmetic / numeric formatting. -/
def numericJ (v : JSON) : Bool := (scalarNum? v).isSome

/-- Python truthiness (`bool(v)`), total on all JSON-decodable values. -/
def truthy : JSON → Bool
  | .null => false
  | .bool b => b
  | .int n => !(n == 0)
  | .float q => !(q == 0)
  | .str s => !(s == "")
  | .arr l => !l.isEmpty
  | .obj l => !l.isEmpty

/-- Python `a or b` (returns `a` when truthy, else `b`). -/
def pyOr (a b : JSON) : JSON := if truthy a then a else b

/-- Python `v == "lit"` for a string literal: only a `str` can compare equal. -/
def strEqJ (v : JSON) (lit : String) : Bool :=
  match v with
  | .str s => s == lit
  | _ => false

-- ------------------------------------------------------------
-- Helper: detect what type of tool result this is
-- (analyze.py, `detect_result_type`)
-- ------------------------------------------------------------

/-- Best-effort classification of the backend JSON shape
(`detect_result_type` in `analyze.py`): key-presence tests on mappings,
first-element signature on sequences, `"unknown"` otherwise. -/
def detect_result_type (result : JSON) : String :=
  match result with
  | .obj r =>
      if hasKey r "error" then "error"
      else if hasKey r "uniqueVehicles" && hasKey r "site" then "site_totals"
      else if hasKey r "uniqueVehicles" && !hasKey r "site" then "city_totals"
      else if hasKey r "detectionsTotal" && hasKey r "detectionsGood"
              && hasKey r "detectionsBad" then "site_day_status"
      else if hasKey r "plate" && hasKey r "cumNFrames" then "vehicle_degrade"
      else "unknown"
  | .arr [] => "trips"
  | .arr (first :: _) =>
      match first with
      | .obj f =>
          if hasKey f "plate" && hasKey f "day" && hasKey f "window30" then "trips"
          else "unknown"
      | _ => "unknown"
  | _ => "unknown"

-- ------------------------------------------------------------
-- Format helpers (analyze.py, `pct` and the f-string format specs)
-- ------------------------------------------------------------

instance {ε α : Type} [DecidableEq ε] [DecidableEq α] : DecidableEq (Except ε α)
  | .error x, .error y => decidable_of_iff (x = y) (by simp)
  | .error _, .ok _ => isFalse (by simp)
  | .ok _, .error _ => isFalse (by simp)
  | .ok x, .ok y => decidable_of_iff (x = y) (by simp)

/-- Python `round` ties-to-even, idealised on the exact rational value. -/
def roundHalfEven (q : ℚ) : Int :=
  let f := ⌊q⌋
  let r := q - f
  if r < 1 / 2 then f
  else if r > 1 / 2 then f + 1
  else if f % 2 = 0 then f else f + 1

/-- Python `round(x, 1)`. -/
def round1 (q : ℚ) : ℚ := (roundHalfEven (q * 10) : ℚ) / 10

/-- Python `c * v` with `c` a float literal: `TypeError` unless `v` is a
number (`bool` counts as a number). -/
def pyMulF (c : ℚ) (v : JSON) : Except PyErr ℚ :=
  match scalarNum? v with
  | some x => .ok (c * x)
  | none => .error .typeError

/-- Python `x / v` with `x` a float: `TypeError` on a non-number,
`ZeroDivisionError` on a numeric zero. -/
def pyDivNum (x : ℚ) (v : JSON) : Except PyErr ℚ :=
  match scalarNum? v with
  | some w => if w = 0 then .error .zeroDivisionError else .ok (x / w)
  | none => .error .typeError

/-- `pct` from `analyze.py`: returns `0.0` when `whole` is falsy, otherwise
`round(100.0 * part / whole, 1)`. The Python float result is modelled as the
exact rational. -/
def pct (part whole : JSON) : Except PyErr ℚ :=
  if truthy whole = false then .ok 0
  else do
    let x ← pyMulF 100 part
    let r ← pyDivNum x whole
    .ok (round1 r)

-- ------------------------------------------------------------
-- Python string rendering (str()/repr() and format specs), used by the
-- f-string templates in the analyzer functions.
-- ------------------------------------------------------------

/-- A single-quote character as a string (used by Python container repr
and by the templates that contain contractions). -/
def pyQuote : String := String.singleton (Char.ofNat 39)

/-- Insert a separator after every third character of a reversed digit
list (thousands grouping, working from the least significant digit). -/
def groupRev : List Char → List Char
  | a :: b :: c :: d :: rest => a :: b :: c :: ',' :: groupRev (d :: rest)
  | l => l

/-- Decimal digits of a natural number with thousands separators
(Python `format(n, ",")`). -/
def commaNat (n : ℕ) : String :=
  ((groupRev (toString n).toList.reverse).reverse).asString

/-- Python `format(n, ",")` for an int. -/
def commaInt (n : Int) : String :=
  (if n < 0 then "-" else "") ++ commaNat n.natAbs

/-- Least `k ≤ 64` with `d ∣ 10 ^ k` (a Python float's denominator always
has one, since it is a power of two). -/
def tenPow? (d : ℕ) : Option ℕ :=
  (List.range 65).find? (fun k => 10 ^ k % d = 0)

def padZeros (w : ℕ) (s : String) : String :=
  String.mk (List.replicate (w - s.length) '0') ++ s

/-- Whole part and fractional digit string of a non-negative rational with
terminating decimal expansion (the shortest repr Python would print). -/
def ratDecParts (a : ℚ) : Option (ℕ × String) :=
  match tenPow? a.den with
  | some k =>
      let m := a.num.natAbs * 10 ^ k / a.den
      some (m / 10 ^ k, if k = 0 then "0" else padZeros k (toString (m % 10 ^ k)))
  | none => none

/-- Python `str()` of a float, idealised over the exact rational value:
always shows at least one decimal (`str(2.0) = "2.0"`). Rationals with no
terminating decimal cannot arise from a Python float; they render as a
fraction so the function stays total. -/
def floatRepr (q : ℚ) : String :=
  let sign := if q < 0 then "-" else ""
  match ratDecParts |q| with
  | some (w, f) => sign ++ toString w ++ "." ++ f
  | none => sign ++ toString |q|.num.natAbs ++ "/" ++ toString |q|.den

/-- Python `format(x, ",")` for a float: thousands grouping on the whole
part only. -/
def commaFloat (q : ℚ) : String :=
  let sign := if q < 0 then "-" else ""
  match ratDecParts |q| with
  | some (w, f) => sign ++ commaNat w ++ "." ++ f
  | none => sign ++ toString |q|.num.natAbs ++ "/" ++ toString |q|.den

/-- Python f-string `{v:,}`: ints and floats format with separators, `bool`
formats through `int`, `str` raises `ValueError` (cannot specify `,` with
`s`), anything else raises `TypeError`. -/
def fmtComma : JSON → Except PyErr String
  | .int n => .ok (commaInt n)
  | .bool b => .ok (if b then "1" else "0")
  | .float q => .ok (commaFloat q)
  | .str _ => .error .valueError
  | _ => .error .typeError

/-- Fixed-point rendering of a rational with `nd` decimals, Python
round-half-even idealised on the exact value. -/
def fixedRepr (nd : ℕ) (x : ℚ) : String :=
  let m := roundHalfEven (x * 10 ^ nd)
  let sign := if m < 0 then "-" else ""
  sign ++ toString (m.natAbs / 10 ^ nd) ++ "." ++
    padZeros nd (toString (m.natAbs % 10 ^ nd))

/-- Python f-string `{v:.ndf}`: numbers format fixed-point, `str` raises
`ValueError` (unknown format code for str), others `TypeError`. -/
def fmtFixed (nd : ℕ) : JSON → Except PyErr String
  | .int n => .ok (fixedRepr nd n)
  | .bool b => .ok (fixedRepr nd (if b then 1 else 0))
  | .float q => .ok (fixedRepr nd q)
  | .str _ => .error .valueError
  | _ => .error .typeError

mutual

/-- Python `repr()` of a JSON-decodable value (strings quoted; quote
escaping inside strings is not modelled — backend identifiers contain no
quotes). -/
def pyRepr : JSON → String
  | .null => "None"
  | .bool true => "True"
  | .bool false => "False"
  | .int n => toString n
  | .float q => floatRepr q
  | .str s => pyQuote ++ s ++ pyQuote
  | .arr xs => "[" ++ pyReprList xs ++ "]"
  | .obj kvs => "\x7b" ++ pyReprFields kvs ++ "\x7d"

def pyReprList : List JSON → String
  | [] => ""
  | [x] => pyRepr x
  | x :: rest => pyRepr x ++ ", " ++ pyReprList rest

def pyReprFields : List (String × JSON) → String
  | [] => ""
  | [(k, v)] => pyQuote ++ k ++ pyQuote ++ ": " ++ pyRepr v
  | (k, v) :: rest => pyQuote ++ k ++ pyQuote ++ ": " ++ pyRepr v ++ ", " ++ pyReprFields rest

end

/-- Python `str()` of a JSON-decodable value (containers fall back to
`repr` of their elements, as Python does). -/
def pyStr : JSON → String
  | .null => "None"
  | .bool true => "True"
  | .bool false => "False"
  | .int n => toString n
  | .float q => floatRepr q
  | .str s => s
  | .arr xs => "[" ++ pyReprList xs ++ "]"
  | .obj kvs => "\x7b" ++ pyReprFields kvs ++ "\x7d"

-- ------------------------------------------------------------
-- Python attribute/key access and comparisons used by the analyzers
-- ------------------------------------------------------------

/-- Python `result.get(key, default)`: raises `AttributeError` when the
receiver is not a dict. -/
def pyGetD (v : JSON) (k : String) (d : JSON) : Except PyErr JSON :=
  match v with
  | .obj kvs => .ok (dictGetD kvs k d)
  | _ => .error .attributeError

/-- A stored JSON null IS Python `None`, indistinguishable from an absent
key when the lookup default is `None`. -/
def optPy : Option JSON → Option JSON
  | some .null => none
  | some x => some x
  | none => none

/-- Python `result.get(key, None)` exposed as an `Option`. -/
def pyGetOpt (v : JSON) (k : String) : Except PyErr (Option JSON) :=
  match v with
  | .obj kvs => .ok (optPy (dictGet kvs k))
  | _ => .error .attributeError

/-- Python `c <= v` with a numeric literal `c`: `TypeError` on non-numbers. -/
def pyGE (v : JSON) (c : ℚ) : Except PyErr Bool :=
  match scalarNum? v with
  | some x => .ok (decide (c ≤ x))
  | none => .error .typeError

/-- Python `v < c` with a numeric literal `c`: `TypeError` on non-numbers. -/
def pyLtC (v : JSON) (c : ℚ) : Except PyErr Bool :=
  match scalarNum? v with
  | some x => .ok (decide (x < c))
  | none => .error .typeError

/-- Python chained comparison `lo <= v < hi` (left to right, lazy). -/
def pyChain (lo : ℚ) (v : JSON) (hi : ℚ) : Except PyErr Bool := do
  let a ← pyGE v lo
  if a then pyLtC v hi else .ok false

-- ------------------------------------------------------------
-- Analyzers per result type (analyze.py)
-- ------------------------------------------------------------

/-- The fixed f-string template of `analyze_error`, with the question and
the stringified message spliced in. -/
def errorTemplate (question msg : String) : String :=
  "I tried to answer your question:\n\n  \"" ++ question ++
  "\"\n\nbut the backend returned an error:\n\n  " ++ msg ++
  "\n\nThis usually means there is no data for that day/site/plate combination " ++
  "or the identifiers don" ++ pyQuote ++ "t exist in the twin."

/-- `analyze_error`: `result.get("error", "Unknown backend error.")`
spliced into the fixed template (note: no falsy-default, an empty string
stays empty). -/
def analyze_error (question : String) (result : JSON) : Except PyErr String := do
  let msg ← pyGetD result "error" (.str "Unknown backend error.")
  .ok (errorTemplate question (pyStr msg))

/-- City-level health label thresholds of `analyze_city_totals`. -/
def cityHealth (always_pct : ℚ) : String :=
  if always_pct < 2 then "excellent"
  else if always_pct < 5 then "good"
  else if always_pct < 10 then "borderline"
  else "concerning"

/-- `analyze_city_totals`. -/
def analyze_city_totals (question : String) (result : JSON) : Except PyErr String := do
  let day ← pyGetD result "day" (.str "?")
  let unique_veh ← pyGetD result "uniqueVehicles" (.int 0)
  let always_deg ← pyGetD result "alwaysDegraded" (.int 0)
  let not_always ← pyGetD result "notAlwaysDegraded" (.int 0)
  let always_pct ← pct always_deg unique_veh
  let not_always_pct ← pct not_always unique_veh
  let health := cityHealth always_pct
  let uvS ← fmtComma unique_veh
  let adS ← fmtComma always_deg
  let naS ← fmtComma not_always
  .ok ("**City-wide vehicle degradation on " ++ pyStr day ++ "**\n\n" ++
    "- Unique vehicles: **" ++ uvS ++ "**\n" ++
    "- Always degraded: **" ++ adS ++ "** (" ++ floatRepr always_pct ++ "%)\n" ++
    "- Not always degraded: **" ++ naS ++ "** (" ++ floatRepr not_always_pct ++ "%)\n\n" ++
    "**Interpretation**\n" ++
    "- City health on this day is **" ++ health ++ "** based on the share of always-degraded vehicles.\n" ++
    "- Always-degraded means the vehicle looked bad everywhere it appeared that day, " ++
    "which strongly suggests a **vehicle-side issue** rather than a site-only problem.\n\n" ++
    "If you want, you can drill into:\n" ++
    "- A specific site with: *“How many degraded vehicles were at RUHSMxxx on " ++ pyStr day ++ "?”*\n" ++
    "- A specific plate with: *“Show the degradation history for plate ABC1234.”*")

/-- Site-level health label thresholds of `analyze_site_totals`. -/
def siteHealthLabel (always_pct : ℚ) : String :=
  if always_pct < 2 then "very healthy"
  else if always_pct < 5 then "healthy"
  else if always_pct < 10 then "borderline"
  else "suspicious"

/-- `analyze_site_totals`. -/
def analyze_site_totals (question : String) (result : JSON) : Except PyErr String := do
  let day ← pyGetD result "day" (.str "?")
  let site ← pyGetD result "site" (.str "?")
  let unique_veh ← pyGetD result "uniqueVehicles" (.int 0)
  let always_deg ← pyGetD result "alwaysDegraded" (.int 0)
  let not_always ← pyGetD result "notAlwaysDegraded" (.int 0)
  let always_pct ← pct always_deg unique_veh
  let not_always_pct ← pct not_always unique_veh
  let site_health := siteHealthLabel always_pct
  let uvS ← fmtComma unique_veh
  let adS ← fmtComma always_deg
  let naS ← fmtComma not_always
  let lines := ["**Site-level degraded vehicles — " ++ pyStr site ++ " on " ++ pyStr day ++ "**",
    "",
    "- Unique vehicles seen: **" ++ uvS ++ "**",
    "- Always degraded: **" ++ adS ++ "** (" ++ floatRepr always_pct ++ "%)",
    "- Not always degraded: **" ++ naS ++ "** (" ++ floatRepr not_always_pct ++ "%)",
    "",
    "**Interpretation**",
    "- This site on that day looks **" ++ site_health ++ "** from a vehicle degradation perspective."]
  let lines := lines ++
    (if site_health == "borderline" || site_health == "suspicious" then
      ["- A high share of always-degraded vehicles suggests something systematic " ++
        "at this site: alignment, illumination, or configuration.",
       "- Cross-check this with trip patterns: do many of these vehicles look fine " ++
        "at other sites the same day?"]
    else
      ["- Most vehicles either look fine or only occasionally degraded here, " ++
        "which is consistent with normal traffic and environment."])
  .ok (String.intercalate "\n" lines)

/-- Threshold-derived qualitative label of `analyze_site_day_status`
(lines taken when the resolved status is the `"unknown"` sentinel). -/
def thresholdQualitative (grp : Option JSON) : Except PyErr JSON :=
  match grp with
  | none => .ok (.str "no data")
  | some g => do
      if (← pyGE g 90) then .ok (.str "healthy")
      else if (← pyGE g 80) then .ok (.str "slightly degraded")
      else if (← pyGE g 60) then .ok (.str "borderline")
      else .ok (.str "heavily degraded")

/-- The qualitative label of `analyze_site_day_status`: the resolved status
verbatim unless it equals the `"unknown"` sentinel (which also stands for
an absent/falsy status field), in which case thresholds apply. -/
def siteDayQualitative (status : JSON) (grp : Option JSON) : Except PyErr JSON :=
  if strEqJ status "unknown" then thresholdQualitative grp else .ok status

/-- The trailing interpretive paragraph of `analyze_site_day_status`,
driven by the numeric good rate only (independent of the status field). -/
def siteDayExtra (g : JSON) : Except PyErr (List String) := do
  if (← pyGE g 90) then
    .ok ["- This looks like a strong, clean day. Any vehicle issues here are more likely " ++
      "to be vehicle-specific rather than a site fault."]
  else if (← pyChain 80 g 90) then
    .ok ["- Slight degradation: some conditions (e.g., lighting at specific hours or certain lanes) " ++
      "may be reducing quality, but the site is broadly OK."]
  else if (← pyChain 60 g 80) then
    .ok ["- Borderline performance: you should inspect **per-lane / per-hour** breakdowns " ++
      "to see if issues cluster at specific times or directions."]
  else
    .ok ["- Heavy degradation: this likely indicates a **site-level problem** (alignment, focus, " ++
      "camera cleanliness, or configuration). This site should be prioritized for maintenance."]

/-- Lines 187-188 of `analyze.py`: recompute `good_rate_pct` from the
detection counts when it is missing and the total is truthy. -/
def recomputeGoodRate (grp0 : Option JSON) (total good : JSON) :
    Except PyErr (Option JSON) :=
  if grp0.isNone && truthy total then do
    let p ← pct good total
    pure (some (JSON.float p))
  else pure grp0

/-- The trailing interpretive block is emitted only when the good rate is
defined. -/
def siteDayExtraOf (grp : Option JSON) : Except PyErr (List String) :=
  match grp with
  | none => pure []
  | some g => siteDayExtra g

/-- `analyze_site_day_status`, as the list of lines later joined with
newlines (the Python code builds exactly this list). -/
def analyze_site_day_status_lines (question : String) (result : JSON) :
    Except PyErr (List String) := do
  let day ← pyGetD result "day" (.str "?")
  let site ← pyGetD result "site" (.str "?")
  let total ← pyGetD result "detectionsTotal" (.int 0)
  let good ← pyGetD result "detectionsGood" (.int 0)
  let bad ← pyGetD result "detectionsBad" (.int 0)
  let grp0 ← pyGetOpt result "goodRatePct"
  let status0 ← pyGetD result "status" (.str "")
  let status := pyOr status0 (.str "unknown")
  let color0 ← pyGetD result "color" (.str "")
  let color := pyOr color0 (.str "none")
  let grp ← recomputeGoodRate grp0 total good
  let qualitative ← siteDayQualitative status grp
  let totalS ← fmtComma total
  let goodS ← fmtComma good
  let badS ← fmtComma bad
  let grpS ← fmtFixed 1 (grp.getD (.int 0))
  let extra ← siteDayExtraOf grp
  .ok (["**Daily site health — " ++ pyStr site ++ " on " ++ pyStr day ++ "**",
    "",
    "- Total detections: **" ++ totalS ++ "**",
    "- Good detections: **" ++ goodS ++ "**",
    "- Bad detections: **" ++ badS ++ "**",
    "- Good rate: **" ++ grpS ++ "%**",
    "- Status flag: **" ++ pyStr status ++ "** (color: `" ++ pyStr color ++ "`)",
    "",
    "**Interpretation**",
    "- Overall this site is **" ++ pyStr qualitative ++ "** on that day based on the good-rate percentage."]
    ++ extra)

/-- `analyze_site_day_status` (`"\n".join(lines)` of the list above). -/
def analyze_site_day_status (question : String) (result : JSON) : Except PyErr String :=
  String.intercalate "\n" <$> analyze_site_day_status_lines question result

/-- `analyze_vehicle_degrade`. -/
def analyze_vehicle_degrade (question : String) (result : JSON) : Except PyErr String := do
  let plate ← pyGetD result "plate" (.str "?")
  let day0 ← pyGetD result "day" .null
  let day := pyOr day0 (.str "latest day in index")
  let vehicle_type ← pyGetD result "vehicleType" .null
  let vl0 ← pyGetD result "vehicleLabel" (.str "")
  let vehicle_label := pyOr vl0 (.str "unknown type")
  let fd0 ← pyGetD result "firstDay" .null
  let first_day := pyOr fd0 (.str "unknown")
  let cum_min_q ← pyGetD result "cumMinQ" (.float 0)
  let cum_max_q ← pyGetD result "cumMaxQ" (.float 0)
  let frames ← pyGetD result "cumNFrames" (.int 0)
  let always ← pyGetD result "alwaysDegraded" (.bool false)
  let health_desc := if truthy always then "always degraded" else "not always degraded"
  let framesS ← fmtComma frames
  let minS ← fmtFixed 3 cum_min_q
  let maxS ← fmtFixed 3 cum_max_q
  let lines := ["**Vehicle degradation profile — plate " ++ pyStr plate ++ "**",
    "",
    "- Vehicle type: **" ++ pyStr vehicle_label ++ "** (code: " ++ pyStr vehicle_type ++ ")",
    "- First seen in degraded stats: **" ++ pyStr first_day ++ "**",
    "- Latest record day: **" ++ pyStr day ++ "**",
    "- Frames considered: **" ++ framesS ++ "**",
    "- Cumulative quality range: **" ++ minS ++ " – " ++ maxS ++ "**",
    "- Classification: **" ++ health_desc ++ "**",
    "",
    "**Interpretation**"]
  let lines := lines ++
    (if truthy always then
      ["- This vehicle is consistently degraded wherever it appears. " ++
        "That strongly suggests a **vehicle-side issue** (dirty plate, mounting angle, damage) " ++
        "rather than a site-only problem."]
    else
      ["- This vehicle is sometimes good and sometimes bad. " ++
        "That typically means it" ++ pyQuote ++ "s useful for **site diagnostics**: " ++
        "compare which sites see it with good quality versus poor quality."])
  let lines := lines ++
    ["If you want, you can ask next: " ++
      "\"Show all trips for this plate\" or " ++
      "\"Which sites does this vehicle look worst at?\""]
  .ok (String.intercalate "\n" lines)

-- ------------------------------------------------------------
-- Python operations needed by analyze_trips
-- ------------------------------------------------------------

/-- Python `a < b` as used on quality values and site names: numbers
compare numerically (bool as int), strings lexicographically, anything
else raises `TypeError`. (Python also orders sequences element-wise;
no quality field of this backend is a sequence, so that case is folded
into `TypeError` here.) -/
def pyLt (a b : JSON) : Except PyErr Bool :=
  match a, b with
  | .str s, .str t => .ok (decide (s < t))
  | _, _ =>
      match scalarNum? a, scalarNum? b with
      | some x, some y => .ok (decide (x < y))
      | _, _ => .error .typeError

/-- Python iteration (`for s in v`): lists yield elements, strings yield
one-character strings, dicts yield their keys; numbers and `None` raise. -/
def pyIter : JSON → Except PyErr (List JSON)
  | .arr xs => .ok xs
  | .str s => .ok (s.toList.map (fun c => .str (String.singleton c)))
  | .obj kvs => .ok (kvs.map (fun kv => .str kv.1))
  | _ => .error .typeError

/-- Whether a value can be a Python set element (lists/dicts are
unhashable). -/
def hashable : JSON → Bool
  | .arr _ => false
  | .obj _ => false
  | _ => true

/-- Python `==` on hashable scalars (numeric kinds cross-compare:
`True == 1`, `1 == 1.0`). -/
def scalarEq (a b : JSON) : Bool :=
  match scalarNum? a, scalarNum? b with
  | some x, some y => decide (x = y)
  | _, _ =>
      match a, b with
      | .null, .null => true
      | .str s, .str t => s == t
      | _, _ => false

/-- Python `set.add`: membership by `==`, `TypeError` on unhashables.
The set is modelled as its insertion-ordered distinct elements; every
observation of it below goes through `sorted(...)` or `len(...)`, which
are independent of this order. -/
def pySetAdd (s : List JSON) (x : JSON) : Except PyErr (List JSON) :=
  if hashable x then .ok (if s.any (scalarEq x) then s else s ++ [x])
  else .error .typeError

def pySetAddAll (s : List JSON) : List JSON → Except PyErr (List JSON)
  | [] => .ok s
  | x :: xs => do pySetAddAll (← pySetAdd s x) xs

/-- One insertion step of `sorted()` (Python comparison semantics). -/
def insertJ (x : JSON) : List JSON → Except PyErr (List JSON)
  | [] => .ok [x]
  | y :: ys => do
      let b ← pyLt x y
      if b then .ok (x :: y :: ys)
      else do
        let r ← insertJ x ys
        .ok (y :: r)

/-- Python `sorted()`, modelled as insertion sort with Python comparison
semantics: identical output and the same success/failure conditions on
the homogeneous collections that occur here. -/
def pySorted : List JSON → Except PyErr (List JSON)
  | [] => .ok []
  | x :: xs => do
      let r ← pySorted xs
      insertJ x r

/-- Python `sep.join(...)`: every element must be a `str`. -/
def asStrList : List JSON → Except PyErr (List String)
  | [] => .ok []
  | .str s :: rest => do .ok (s :: (← asStrList rest))
  | _ => .error .typeError

def pyJoin (sep : String) (elems : List JSON) : Except PyErr String := do
  .ok (String.intercalate sep (← asStrList elems))

/-- Python `sep.join(v)` over an arbitrary iterable. -/
def pyJoinIter (sep : String) (v : JSON) : Except PyErr String := do
  pyJoin sep (← pyIter v)

/-- Does the character list `l` start with `pat`? -/
def startsWithL : List Char → List Char → Bool
  | [], _ => true
  | _ :: _, [] => false
  | a :: pa, b :: pb => a == b && startsWithL pa pb

def containsL (pat : List Char) : List Char → Bool
  | [] => startsWithL pat []
  | l@(_ :: rest) => startsWithL pat l || containsL pat rest

/-- Python substring test `sub in hay` on strings. -/
def strContainsSub (hay sub : String) : Bool := containsL sub.toList hay.toList

/-- Python `sub in container` for a string literal `sub`: substring on
strings, `==`-membership on lists, key-membership on dicts, `TypeError`
otherwise. -/
def pyIn (sub : String) (container : JSON) : Except PyErr Bool :=
  match container with
  | .str s => .ok (strContainsSub s sub)
  | .arr xs => .ok (xs.any (fun v => strEqJ v sub))
  | .obj kvs => .ok (hasKey kvs sub)
  | _ => .error .typeError

/-- Python `any(sub in lbl for lbl in flags)` (short-circuiting). -/
def pyAnyContains (sub : String) : List JSON → Except PyErr Bool
  | [] => .ok false
  | l :: ls => do
      if (← pyIn sub l) then .ok true else pyAnyContains sub ls

-- ------------------------------------------------------------
-- analyze_trips
-- ------------------------------------------------------------

/-- The per-trip accumulators of the single aggregation loop in
`analyze_trips`: the `sites_seen` set, the `min_q_values` and
`max_q_values` lists, and the `issues_flags` list. -/
structure TripAgg where
  sites : List JSON
  minQs : List JSON
  maxQs : List JSON
  flags : List JSON

/-- One iteration of the aggregation loop of `analyze_trips`. -/
def collectTrip (agg : TripAgg) (trip : JSON) : Except PyErr TripAgg := do
  let sl0 ← pyGetD trip "siteList" (.arr [])
  let sl := pyOr sl0 (.arr [])
  let elems ← pyIter sl
  let sites ← pySetAddAll agg.sites elems
  let mn ← pyGetD trip "minQuality" (.float 0)
  let mx ← pyGetD trip "maxQuality" (.float 0)
  let lbl ← pyGetD trip "issueLabel" .null
  .ok ⟨sites, agg.minQs ++ [mn], agg.maxQs ++ [mx],
       agg.flags ++ (if truthy lbl then [lbl] else [])⟩

def collectTrips (trips : List JSON) : Except PyErr TripAgg :=
  trips.foldlM collectTrip ⟨[], [], [], []⟩

/-- Python `min` over a non-empty list: scan keeping the first minimum. -/
def pyMinFold (m : JSON) : List JSON → Except PyErr JSON
  | [] => .ok m
  | x :: xs => do
      let b ← pyLt x m
      pyMinFold (if b then x else m) xs

/-- Python `max` over a non-empty list. -/
def pyMaxFold (m : JSON) : List JSON → Except PyErr JSON
  | [] => .ok m
  | x :: xs => do
      let b ← pyLt m x
      pyMaxFold (if b then x else m) xs

/-- `min(min_q_values) if min_q_values else 0.0` from `analyze_trips`. -/
def pyMinOf : List JSON → Except PyErr JSON
  | [] => .ok (.float 0)
  | x :: xs => pyMinFold x xs

/-- `max(max_q_values) if max_q_values else 0.0` from `analyze_trips`. -/
def pyMaxOf : List JSON → Except PyErr JSON
  | [] => .ok (.float 0)
  | x :: xs => pyMaxFold x xs

/-- The quality-summary thresholds of `analyze_trips` on the global
minimum quality. -/
def qualSummary (gmin : JSON) : Except PyErr String := do
  if (← pyGE gmin (7 / 10)) then .ok "consistently good quality across trips"
  else if (← pyGE gmin (1 / 2)) then .ok "mostly acceptable, with some weaker segments"
  else if (← pyGE gmin (3 / 10)) then .ok "mixed and often weak quality"
  else .ok "frequently very poor quality"

/-- One line of the trip-by-trip breakdown (1-indexed). -/
def tripLine (idx : ℕ) (trip : JSON) : Except PyErr String := do
  let day ← pyGetD trip "day" (.str "?")
  let window ← pyGetD trip "window30" (.str "")
  let hour ← pyGetD trip "hour" .null
  let sl0 ← pyGetD trip "siteList" (.arr [])
  let sites := pyOr sl0 (.arr [])
  let mn ← pyGetD trip "minQuality" (.float 0)
  let mx ← pyGetD trip "maxQuality" (.float 0)
  let rt0 ← pyGetD trip "routeSig" (.str "")
  let route := pyOr rt0 (.str "unknown route")
  let il0 ← pyGetD trip "issueLabel" .null
  let issue_label := pyOr il0 (.str "none")
  let minS ← fmtFixed 3 mn
  let maxS ← fmtFixed 3 mx
  let sitesS ← pyJoinIter "," sites
  .ok ("- Trip " ++ toString idx ++ ": day " ++ pyStr day ++ ", window " ++ pyStr window ++
    " (hour " ++ pyStr hour ++ "), " ++ "route **" ++ pyStr route ++ "**, minQ=" ++ minS ++
    ", maxQ=" ++ maxS ++ ", " ++ "sites=" ++ sitesS ++ ", issue=" ++ pyStr issue_label)

def tripLinesFrom (idx : ℕ) : List JSON → Except PyErr (List String)
  | [] => .ok []
  | t :: ts => do
      let l ← tripLine idx t
      let rest ← tripLinesFrom (idx + 1) ts
      .ok (l :: rest)

def carIssueSentence : String :=
  "- Trips flagged with `car_issue_singleton` or similar usually point to **vehicle-specific problems** " ++
  "rather than a general site fault."

def siteIssueSentence : String :=
  "- Any trips with `siteIssueStrict` suggest that particular sites are dragging quality down " ++
  "for many vehicles, not just this one."

def mixedIssueSentence : String :=
  "- `mixed_quality` means some frames in the trip are good and others are bad, " ++
  "often due to partial occlusion or transient lighting effects."

def issueHeader : String := "**Issue label interpretation**"

/-- The trailing issue-label interpretation block of `analyze_trips`:
emitted only when some trip had a truthy `issueLabel`, with up to three
fixed sentences gated by literal substring tests. -/
def issueInterp (flags : List JSON) : Except PyErr (List String) :=
  if flags.isEmpty then .ok []
  else do
    let b1 ← pyAnyContains "car_issue" flags
    let b2 ← pyAnyContains "site" flags
    let b3 ← pyAnyContains "mixed" flags
    .ok (["", issueHeader] ++
      (if b1 then [carIssueSentence] else []) ++
      (if b2 then [siteIssueSentence] else []) ++
      (if b3 then [mixedIssueSentence] else []))

def noTripsMessage : String :=
  "There are no trips matching that query.\n\n" ++
  "That usually means the plate did not appear in the 30-minute trip index " ++
  "for that day, or it was filtered out during preprocessing."

/-- `analyze_trips` on a non-empty list, as the list of lines later joined
with newlines (the Python code builds exactly this list). -/
def analyze_trips_lines (question : String) (result : List JSON) :
    Except PyErr (List String) := do
  let n_trips := result.length
  let plate ← pyGetD (result.headD .null) "plate" (.str "unknown plate")
  let agg ← collectTrips result
  let gmin ← pyMinOf agg.minQs
  let gmax ← pyMaxOf agg.maxQs
  let qs ← qualSummary gmin
  let sortedSites ← pySorted agg.sites
  let joined ← pyJoin ", " sortedSites
  let minS ← fmtFixed 3 gmin
  let maxS ← fmtFixed 3 gmax
  let header := ["**Trip summary for plate " ++ pyStr plate ++ "**",
    "",
    "- Number of trips: **" ++ toString n_trips ++ "**",
    "- Distinct sites visited: **" ++ toString agg.sites.length ++ "** (" ++ joined ++ ")",
    "- Overall min quality across trips: **" ++ minS ++ "**",
    "- Overall max quality across trips: **" ++ maxS ++ "**",
    "- Quality summary: **" ++ qs ++ "**",
    "",
    "**Trip-by-trip view**"]
  let per ← tripLinesFrom 1 result
  let issue ← issueInterp agg.flags
  .ok (header ++ per ++ issue)

/-- `analyze_trips`: fixed message on an empty list, otherwise the joined
line list. -/
def analyze_trips (question : String) (result : List JSON) : Except PyErr String :=
  if result.isEmpty then .ok noTripsMessage
  else String.intercalate "\n" <$> analyze_trips_lines question result

-- ------------------------------------------------------------
-- Public entrypoint (analyze_result)
-- ------------------------------------------------------------

/-- The fallback template of `analyze_result` for unrecognized shapes. -/
def fallbackMessage (question : String) (result : JSON) : String :=
  "I received data from the backend, but I don" ++ pyQuote ++
  "t recognize its structure.\n\n" ++
  "Question was:\n  \"" ++ question ++ "\"\n\nRaw result:\n" ++ pyStr result

/-- `analyze_result`: classify, dispatch to the matching analyzer, or fall
back to the fixed unrecognized-structure message. -/
def analyze_result (question : String) (result : JSON) : Except PyErr String :=
  let rtype := detect_result_type result
  if rtype == "error" then analyze_error question result
  else if rtype == "city_totals" then analyze_city_totals question result
  else if rtype == "site_totals" then analyze_site_totals question result
  else if rtype == "site_day_status" then analyze_site_day_status question result
  else if rtype == "vehicle_degrade" then analyze_vehicle_degrade question result
  else if rtype == "trips" then
    match result with
    | .arr xs => analyze_trips question xs
    | _ => .ok (fallbackMessage question result)
  else .ok (fallbackMessage question result)

-- ------------------------------------------------------------
-- C3: determinism, and order-independence of the distinct-site render
-- ------------------------------------------------------------

/-- Pure counterpart of one `insertJ` step on string lists. -/
def insertStr (x : String) : List String → List String
  | [] => [x]
  | y :: ys => if x < y then x :: y :: ys else y :: insertStr x ys

/-- Pure counterpart of `pySorted` on string lists. -/
def sortStrs : List String → List String
  | [] => []
  | x :: xs => insertStr x (sortStrs xs)

-- ------------------------------------------------------------
-- C9: the issue-label interpretation section of analyze_trips
-- ------------------------------------------------------------

/-- The `issueLabel` field of a trip mapping (`trip.get("issueLabel")`). -/
def tripIssueLabel : JSON → Option JSON
  | .obj kvs => dictGet kvs "issueLabel"
  | _ => none

/-- The `issues_flags` list the aggregation loop of `analyze_trips`
collects: every truthy `issueLabel`, in trip order. -/
def flagsOf (trips : List JSON) : List JSON :=
  trips.filterMap (fun t =>
    match tripIssueLabel t with
    | some v => if truthy v then some v else none
    | none => none)

/-- The literal substring test on a single string flag. -/
def flagMatch (sub : String) : JSON → Bool
  | .str s => strContainsSub s sub
  | _ => false

/-- A one-trip payload whose issue label `"onsite_check"` exercises the
broad `"site"` substring match. -/
def tripsW : List JSON := [.obj [("plate", .str "AAA111"), ("day", .str "2025-08-16"),
  ("window30", .str "w1"), ("issueLabel", .str "onsite_check")]]

/-- The rendered line list for `tripsW`. -/
def tripsWLines : List String :=
  ["**Trip summary for plate AAA111**", "", "- Number of trips: **1**",
   "- Distinct sites visited: **0** ()",
   "- Overall min quality across trips: **0.000**",
   "- Overall max quality across trips: **0.000**",
   "- Quality summary: **frequently very poor quality**", "", "**Trip-by-trip view**",
   "- Trip 1: day 2025-08-16, window w1 (hour None), route **unknown route**, minQ=0.000, maxQ=0.000, sites=, issue=onsite_check",
   "", "**Issue label interpretation**",
   "- Any trips with `siteIssueStrict` suggest that particular sites are dragging quality down for many vehicles, not just this one."]

-- ------------------------------------------------------------
-- C2: well-typedness of payload field values, and the raising behaviour
-- of the full pipeline
-- ------------------------------------------------------------

/-- Is the value a string? -/
def isStrJ : JSON → Bool
  | .str _ => true
  | _ => false

/-- The named key, when present, holds a number. -/
def numIfPresent (kvs : List (String × JSON)) (k : String) : Bool :=
  match dictGet kvs k with
  | some v => numericJ v
  | none => true

/-- The named key, when present, holds a number or null. -/
def numOrNullIfPresent (kvs : List (String × JSON)) (k : String) : Bool :=
  match dictGet kvs k with
  | some .null => true
  | some v => numericJ v
  | none => true

/-- Well-typed city/site totals payload: the three counts are numbers
when present. -/
def wfCounts (kvs : List (String × JSON)) : Bool :=
  numIfPresent kvs "uniqueVehicles" && numIfPresent kvs "alwaysDegraded" &&
    numIfPresent kvs "notAlwaysDegraded"

/-- Well-typed site-day-status payload. -/
def wfSiteDay (kvs : List (String × JSON)) : Bool :=
  numIfPresent kvs "detectionsTotal" && numIfPresent kvs "detectionsGood" &&
    numIfPresent kvs "detectionsBad" && numOrNullIfPresent kvs "goodRatePct"

/-- Well-typed vehicle-degradation payload. -/
def wfVehicle (kvs : List (String × JSON)) : Bool :=
  numIfPresent kvs "cumMinQ" && numIfPresent kvs "cumMaxQ" &&
    numIfPresent kvs "cumNFrames"

/-- A `siteList` value the trips loop can process: an iterable whose
iteration yields strings, or a falsy value (replaced by `[]`). -/
def wfSiteListVal : JSON → Bool
  | .arr es => es.all isStrJ
  | .str _ => true
  | .obj _ => true
  | v => !truthy v

/-- A well-typed trip element: a mapping with string site lists, numeric
qualities, and a string (or falsy) issue label. -/
def wfTrip : JSON → Bool
  | .obj kvs =>
      (match dictGet kvs "siteList" with
       | some v => wfSiteListVal v
       | none => true) &&
      numIfPresent kvs "minQuality" && numIfPresent kvs "maxQuality" &&
      (match dictGet kvs "issueLabel" with
       | some (.str _) => true
       | some v => !truthy v
       | none => true)
  | _ => false

def wfTrips (ts : List JSON) : Bool := ts.all wfTrip

/-- Well-typed payload: the fields of whichever category signature the
payload matches hold values of the types the renderer formats. -/
def wellTypedResult : JSON → Bool
  | .obj kvs =>
      if hasKey kvs "error" then true
      else if hasKey kvs "uniqueVehicles" then wfCounts kvs
      else if hasKey kvs "detectionsTotal" && hasKey kvs "detectionsGood"
              && hasKey kvs "detectionsBad" then wfSiteDay kvs
      else if hasKey kvs "plate" && hasKey kvs "cumNFrames" then wfVehicle kvs
      else true
  | .arr ts => if detect_result_type (.arr ts) == "trips" then wfTrips ts else true
  | _ => true

/-- Invariant of the trips aggregation state: string sites, numeric
qualities, string flags. -/
def aggWF (agg : TripAgg) : Bool :=
  agg.sites.all isStrJ && agg.minQs.all numericJ && agg.maxQs.all numericJ &&
    agg.flags.all isStrJ

example : detect_result_type (.obj [("error", .str "x"), ("site", .null)]) = "error" := rfl

example : detect_result_type (.obj [("uniqueVehicles", .int 3)]) = "city_totals" := rfl

example : detect_result_type (.obj [("uniqueVehicles", .int 3), ("site", .str "S")]) = "site_totals" := rfl

example : detect_result_type (.arr []) = "trips" := rfl

example : detect_result_type (.int 7) = "unknown" := rfl

-- ------------------------------------------------------------
-- Classifier theorems (C1, C4, C5, C10)
-- ------------------------------------------------------------

/-- Claim C1. Classification is total and never raises: `detect_result_type` is a
total function on all JSON-decodable values (mapping, sequence, scalar or
null) and always returns one of the seven labels, with `"unknown"` as the
fallthrough; totality of the Lean function is the never-raises property. -/
theorem detect_result_type_total (result : JSON) :
    detect_result_type result = "error" ∨
    detect_result_type result = "city_totals" ∨
    detect_result_type result = "site_totals" ∨
    detect_result_type result = "site_day_status" ∨
    detect_result_type result = "vehicle_degrade" ∨
    detect_result_type result = "trips" ∨
    detect_result_type result = "unknown" := by
  cases result with
  | null => simp [detect_result_type]
  | bool b => simp [detect_result_type]
  | int n => simp [detect_result_type]
  | float q => simp [detect_result_type]
  | str s => simp [detect_result_type]
  | obj r =>
      simp only [detect_result_type]
      split_ifs <;> simp
  | arr l =>
      match l with
      | [] => simp [detect_result_type]
      | first :: rest =>
          cases first <;> simp only [detect_result_type]
          case obj f => split_ifs <;> simp
          all_goals simp

/-- Claim C4. Error-key precedence: any mapping containing the key `"error"` is
classified `"error"`, whatever other keys are present. -/
theorem error_key_precedence (kvs : List (String × JSON))
    (h : hasKey kvs "error" = true) :
    detect_result_type (.obj kvs) = "error" := by
  simp [detect_result_type, h]

theorem error_key_precedence_witness :
    detect_result_type (.obj [("error", .str "boom"), ("uniqueVehicles", .int 5),
      ("site", .str "RUHSM173"), ("plate", .str "ABC123"),
      ("detectionsTotal", .int 1), ("detectionsGood", .int 1),
      ("detectionsBad", .int 0), ("cumNFrames", .int 9)]) = "error" :=
  error_key_precedence _ rfl

/-- Claim C5. The uniqueVehicles dispatch: a mapping with `"uniqueVehicles"` and
without `"error"` is classified `"site_totals"` iff it also has `"site"`,
and `"city_totals"` otherwise. -/
theorem uniqueVehicles_dispatch (kvs : List (String × JSON))
    (hu : hasKey kvs "uniqueVehicles" = true)
    (he : hasKey kvs "error" = false) :
    ((detect_result_type (.obj kvs) = "site_totals") ↔ (hasKey kvs "site" = true)) ∧
    (hasKey kvs "site" = false → detect_result_type (.obj kvs) = "city_totals") := by
  cases hs : hasKey kvs "site" <;> simp [detect_result_type, hu, he, hs]

theorem uniqueVehicles_dispatch_witness :
    ((detect_result_type (.obj [("uniqueVehicles", .int 3), ("site", .str "S")]) = "site_totals") ↔
      (hasKey [("uniqueVehicles", .int 3), ("site", JSON.str "S")] "site" = true)) ∧
    (hasKey [("uniqueVehicles", .int 3), ("site", JSON.str "S")] "site" = false →
      detect_result_type (.obj [("uniqueVehicles", .int 3), ("site", .str "S")]) = "city_totals") :=
  uniqueVehicles_dispatch _ rfl rfl

/-- Claim C10. Classification of mappings is value-blind: it depends only on which
keys are present, never on the values stored under them. -/
theorem classify_value_blind (kvs1 kvs2 : List (String × JSON))
    (h : ∀ k, hasKey kvs1 k = hasKey kvs2 k) :
    detect_result_type (.obj kvs1) = detect_result_type (.obj kvs2) := by
  simp only [detect_result_type, h]

theorem classify_value_blind_witness :
    detect_result_type (.obj [("uniqueVehicles", .int 1)]) =
      detect_result_type (.obj [("uniqueVehicles", .str "zzz")]) :=
  classify_value_blind _ _
    (fun k => by by_cases hk : "uniqueVehicles" = k <;> simp [hasKey, dictGet, hk])

@[simp]
theorem okBindE {α β : Type} (a : α) (f : α → Except PyErr β) :
    (Except.ok a >>= f) = f a := rfl

@[simp]
theorem errBindE {α β : Type} (e : PyErr) (f : α → Except PyErr β) :
    ((Except.error e : Except PyErr α) >>= f) = Except.error e := rfl

@[simp]
theorem isOk_okE {α : Type} (a : α) : (Except.ok a : Except PyErr α).isOk = true := rfl

@[simp]
theorem isOk_errE {α : Type} (e : PyErr) :
    (Except.error e : Except PyErr α).isOk = false := rfl

-- ------------------------------------------------------------
-- C6: the percentage helper
-- ------------------------------------------------------------

/-- Claim C6. `pct(0, 0) = 0.0`, `pct(5, 10) = 50.0`, `pct(1, 3) = 33.3`, and for
every numerator the result is exactly `0.0` whenever the denominator is
zero (or falsy), with no exception and no NaN/Infinity (the function is
total and rational-valued on those inputs). -/
theorem pct_spec :
    pct (.float 0) (.float 0) = .ok 0 ∧
    pct (.float 5) (.float 10) = .ok 50 ∧
    pct (.float 1) (.float 3) = .ok (333 / 10) ∧
    (∀ part : JSON, pct part (.float 0) = .ok 0 ∧ pct part (.int 0) = .ok 0) ∧
    (∀ part whole : JSON, truthy whole = false → pct part whole = .ok 0) := by
  refine ⟨by decide, ?_, ?_, fun part => ⟨rfl, rfl⟩, fun part whole h => ?_⟩
  · show Except.ok (round1 (100 * 5 / 10)) = Except.ok 50
    have h5 : (100 * 5 / 10 : ℚ) = 50 := by norm_num
    rw [h5]; unfold round1 roundHalfEven; norm_num
  · show Except.ok (round1 (100 * 1 / 3)) = Except.ok (333 / 10)
    have h3 : (100 * 1 / 3 : ℚ) = 1000 / 3 / 10 := by norm_num
    rw [h3]; unfold round1 roundHalfEven
    rw [div_mul_cancel₀ ((1000 : ℚ) / 3) (by norm_num)]
    have hf : ⌊(1000 : ℚ) / 3⌋ = 333 := by norm_num
    rw [hf]
    norm_num
  · simp [pct, h]

theorem pct_spec_witness : pct (.str "x") (.str "") = .ok 0 :=
  pct_spec.2.2.2.2 (.str "x") (.str "") rfl

example : commaNat 1000 = "1,000" := by decide

example : commaNat 985 = "985" := by decide

example : fixedRepr 1 (333 / 10) = "33.3" := by with_unfolding_all decide

example : fixedRepr 3 (1 / 10) = "0.100" := by with_unfolding_all decide

example : floatRepr (3 / 2) = "1.5" := by with_unfolding_all decide

example : floatRepr 0 = "0.0" := by decide

example : pyStr (.obj [("foo", .str "bar")]) = "\x7b" ++ pyQuote ++ "foo" ++ pyQuote ++ ": " ++ pyQuote ++ "bar" ++ pyQuote ++ "\x7d" := by decide

-- ------------------------------------------------------------
-- Decomposition lemma for Except chains
-- ------------------------------------------------------------

theorem bindOk {α β : Type} {e : Except PyErr α} {f : α → Except PyErr β} {b : β} :
    (e >>= f) = .ok b ↔ ∃ a, e = .ok a ∧ f a = .ok b := by
  cases e with
  | ok a => simp
  | error err => simp [errBindE]

-- ------------------------------------------------------------
-- C8: error-message defaulting
-- ------------------------------------------------------------

/-- Claim C8 (amended): the message embedded by the error renderer is the
default "Unknown backend error." exactly when the `"error"` key is absent;
whenever the key is present its value is embedded verbatim — including the
empty string, which is NOT replaced by the default. -/
theorem error_message_defaulting (q : String) (kvs : List (String × JSON)) :
    (hasKey kvs "error" = false →
      analyze_error q (.obj kvs) = .ok (errorTemplate q "Unknown backend error.")) ∧
    (∀ v, dictGet kvs "error" = some v →
      analyze_error q (.obj kvs) = .ok (errorTemplate q (pyStr v))) := by
  constructor
  · intro h
    have hn : dictGet kvs "error" = none := by
      cases hd : dictGet kvs "error" with
      | none => rfl
      | some v => rw [hasKey, hd] at h; simp at h
    simp [analyze_error, pyGetD, dictGetD, hn, pyStr]
  · intro v hv
    simp [analyze_error, pyGetD, dictGetD, hv]

theorem error_message_defaulting_witness :
    analyze_error "Q" (.obj [("x", .int 1)]) =
      .ok (errorTemplate "Q" "Unknown backend error.") :=
  (error_message_defaulting "Q" [("x", .int 1)]).1 rfl

/-- Counterexample to claim C8 as stated: an empty-string `"error"` value
is embedded verbatim (yielding an empty message slot), not replaced by
"Unknown backend error." as the claim asserts. -/
theorem error_empty_not_defaulted :
    analyze_error "Q" (.obj [("error", .str "")]) = .ok (errorTemplate "Q" "") ∧
    errorTemplate "Q" "" ≠ errorTemplate "Q" "Unknown backend error." :=
  ⟨rfl, by decide⟩

-- ------------------------------------------------------------
-- C7: explicit status used verbatim (amended: except the sentinel)
-- ------------------------------------------------------------

/-- Claim C7 (amended): in the site-day-status report the qualitative
label is the explicit `status` value verbatim whenever that value is a
non-empty string OTHER THAN `"unknown"`; the threshold-derived label is
used when the status field is absent, empty, or the string `"unknown"`
(which the code conflates with its own absent-status sentinel). The last
conjunct places the verbatim label in the rendered line list. -/
theorem explicit_status_verbatim (q : String) (kvs : List (String × JSON)) :
    (∀ s grp, dictGet kvs "status" = some (.str s) → s ≠ "" → s ≠ "unknown" →
      siteDayQualitative (pyOr (dictGetD kvs "status" (.str "")) (.str "unknown")) grp =
        .ok (.str s)) ∧
    (∀ grp, (dictGet kvs "status" = none ∨ dictGet kvs "status" = some (.str "") ∨
        dictGet kvs "status" = some (.str "unknown")) →
      siteDayQualitative (pyOr (dictGetD kvs "status" (.str "")) (.str "unknown")) grp =
        thresholdQualitative grp) ∧
    (∀ s ls, dictGet kvs "status" = some (.str s) → s ≠ "" → s ≠ "unknown" →
      analyze_site_day_status_lines q (.obj kvs) = .ok ls →
      ("- Overall this site is **" ++ s ++
        "** on that day based on the good-rate percentage.") ∈ ls) := by
  have hverb : ∀ s grp, dictGet kvs "status" = some (.str s) → s ≠ "" → s ≠ "unknown" →
      siteDayQualitative (pyOr (dictGetD kvs "status" (.str "")) (.str "unknown")) grp =
        .ok (.str s) := by
    intro s grp hs hne hnu
    have h1 : (s == "") = false := beq_eq_false_iff_ne.mpr hne
    have h2 : (s == "unknown") = false := beq_eq_false_iff_ne.mpr hnu
    simp [dictGetD, hs, pyOr, truthy, h1, siteDayQualitative, strEqJ, h2]
  refine ⟨hverb, ?_, ?_⟩
  · intro grp h
    rcases h with h | h | h <;>
      simp [dictGetD, h, pyOr, truthy, siteDayQualitative, strEqJ]
  · intro s ls hs hne hnu hok
    simp only [analyze_site_day_status_lines, pyGetD, pyGetOpt, okBindE] at hok
    rw [bindOk] at hok
    obtain ⟨grp, hgrp, hok⟩ := hok
    rw [bindOk] at hok
    obtain ⟨qual, hqual, hok⟩ := hok
    rw [hverb s grp hs hne hnu] at hqual
    injection hqual with hq
    subst hq
    rw [bindOk] at hok; obtain ⟨t1, ht1, hok⟩ := hok
    rw [bindOk] at hok; obtain ⟨t2, ht2, hok⟩ := hok
    rw [bindOk] at hok; obtain ⟨t3, ht3, hok⟩ := hok
    rw [bindOk] at hok; obtain ⟨t4, ht4, hok⟩ := hok
    rw [bindOk] at hok; obtain ⟨ex, hex, hok⟩ := hok
    injection hok with hok
    subst hok
    simp [pyStr]

theorem explicit_status_verbatim_witness :
    siteDayQualitative
      (pyOr (dictGetD [("status", JSON.str "healthy")] "status" (.str "")) (.str "unknown"))
      (some (.int 95)) = .ok (.str "healthy") :=
  (explicit_status_verbatim "Q" [("status", JSON.str "healthy")]).1 "healthy"
    (some (.int 95)) rfl (by decide) (by decide)

/-- Counterexample to claim C7 as stated: with the explicit, non-empty
status value `"unknown"`, the report labels the site `"healthy"` (derived
from the 95 good rate), not `"unknown"` verbatim. -/
theorem status_unknown_not_verbatim :
    analyze_site_day_status_lines "Q" (.obj [("day", .str "2025-08-16"),
        ("site", .str "RUHSM173"), ("detectionsTotal", .int 1000),
        ("detectionsGood", .int 950), ("detectionsBad", .int 50),
        ("goodRatePct", .int 95), ("status", .str "unknown"), ("color", .str "green")]) =
      .ok ["**Daily site health — RUHSM173 on 2025-08-16**",
        "",
        "- Total detections: **1,000**",
        "- Good detections: **950**",
        "- Bad detections: **50**",
        "- Good rate: **95.0%**",
        "- Status flag: **unknown** (color: `green`)",
        "",
        "**Interpretation**",
        "- Overall this site is **healthy** on that day based on the good-rate percentage.",
        "- This looks like a strong, clean day. Any vehicle issues here are more likely to be vehicle-specific rather than a site fault."] ∧
    ("- Overall this site is **unknown** on that day based on the good-rate percentage.") ∉
      ["**Daily site health — RUHSM173 on 2025-08-16**",
        "",
        "- Total detections: **1,000**",
        "- Good detections: **950**",
        "- Bad detections: **50**",
        "- Good rate: **95.0%**",
        "- Status flag: **unknown** (color: `green`)",
        "",
        "**Interpretation**",
        "- Overall this site is **healthy** on that day based on the good-rate percentage.",
        "- This looks like a strong, clean day. Any vehicle issues here are more likely to be vehicle-specific rather than a site fault."] :=
  ⟨by with_unfolding_all rfl, by decide⟩

theorem insertJ_str (x : String) (l : List String) :
    insertJ (.str x) (l.map .str) = .ok ((insertStr x l).map .str) := by
  induction l with
  | nil => rfl
  | cons y ys ih =>
      simp only [List.map, insertJ, pyLt, okBindE, insertStr]
      by_cases h : x < y
      · simp [h]
      · simp [h, ih]

theorem pySorted_str (l : List String) :
    pySorted (l.map .str) = .ok ((sortStrs l).map .str) := by
  induction l with
  | nil => rfl
  | cons x xs ih =>
      simp only [List.map, pySorted, ih, okBindE, sortStrs, insertJ_str]

theorem insertStr_perm (x : String) (l : List String) : List.Perm (insertStr x l) (x :: l) := by
  induction l with
  | nil => exact List.Perm.refl _
  | cons y ys ih =>
      simp only [insertStr]
      by_cases h : x < y
      · rw [if_pos h]
      · rw [if_neg h]
        exact (ih.cons y).trans (List.Perm.swap x y ys)

theorem sortStrs_perm (l : List String) : List.Perm (sortStrs l) l := by
  induction l with
  | nil => exact List.Perm.refl _
  | cons x xs ih => exact (insertStr_perm x (sortStrs xs)).trans (ih.cons x)

theorem insertStr_sorted (x : String) (l : List String) (h : l.Sorted (· ≤ ·)) :
    (insertStr x l).Sorted (· ≤ ·) := by
  induction l with
  | nil => simp [insertStr]
  | cons y ys ih =>
      rcases List.sorted_cons.mp h with ⟨hy, hys⟩
      simp only [insertStr]
      by_cases hxy : x < y
      · rw [if_pos hxy]
        refine List.sorted_cons.mpr ⟨?_, h⟩
        intro b hb
        rcases List.mem_cons.mp hb with rfl | hb2
        · exact le_of_lt hxy
        · exact le_trans (le_of_lt hxy) (hy b hb2)
      · rw [if_neg hxy]
        refine List.sorted_cons.mpr ⟨?_, ih hys⟩
        intro b hb
        rcases List.mem_cons.mp ((insertStr_perm x ys).mem_iff.mp hb) with rfl | hb2
        · exact le_of_not_lt hxy
        · exact hy b hb2

theorem sortStrs_sorted (l : List String) : (sortStrs l).Sorted (· ≤ ·) := by
  induction l with
  | nil => simp [sortStrs]
  | cons x xs ih => exact insertStr_sorted x (sortStrs xs) ih

theorem sortStrs_ext (l1 l2 : List String) (h1 : l1.Nodup) (h2 : l2.Nodup)
    (hm : ∀ x, x ∈ l1 ↔ x ∈ l2) : sortStrs l1 = sortStrs l2 := by
  have hp : List.Perm l1 l2 := (List.perm_ext_iff_of_nodup h1 h2).mpr hm
  exact List.eq_of_perm_of_sorted
    ((sortStrs_perm l1).trans (hp.trans (sortStrs_perm l2).symm))
    (sortStrs_sorted l1) (sortStrs_sorted l2)

/-- Claim C3. Two-run determinism: `analyze_result` is a pure function of
(question, payload), so two invocations on identical inputs are
byte-identical; and the only internally unordered structure — the
`sites_seen` set of `analyze_trips` — is rendered through `sorted(...)`
(`pySorted`), whose output depends only on the membership of the distinct
site names, not on any insertion or iteration order. -/
theorem analyze_deterministic :
    (∀ q r, analyze_result q r = analyze_result q r) ∧
    (∀ s1 s2 : List String, s1.Nodup → s2.Nodup → (∀ x, x ∈ s1 ↔ x ∈ s2) →
      pySorted (s1.map JSON.str) = pySorted (s2.map JSON.str)) := by
  refine ⟨fun q r => rfl, fun s1 s2 h1 h2 hm => ?_⟩
  rw [pySorted_str, pySorted_str, sortStrs_ext s1 s2 h1 h2 hm]

theorem analyze_deterministic_witness :
    pySorted (["b", "a"].map JSON.str) = pySorted (["a", "b"].map JSON.str) :=
  analyze_deterministic.2 ["b", "a"] ["a", "b"] (by decide) (by decide)
    (fun x => by constructor <;> (intro h; rcases List.mem_cons.mp h with rfl | h <;> simp_all))

theorem flagsOf_cons (t : JSON) (ts : List JSON) :
    flagsOf (t :: ts) = flagsOf [t] ++ flagsOf ts := by
  simp only [flagsOf, List.filterMap_cons, List.filterMap_nil]
  cases hX : (match tripIssueLabel t with
    | some v => if truthy v = true then some v else none
    | none => none) <;> simp

theorem collectTrip_flags (agg agg2 : TripAgg) (t : JSON)
    (h : collectTrip agg t = .ok agg2) :
    agg2.flags = agg.flags ++ flagsOf [t] := by
  cases t with
  | obj kvs =>
      simp only [collectTrip, pyGetD, okBindE] at h
      rw [bindOk] at h
      obtain ⟨elems, he, h⟩ := h
      rw [bindOk] at h
      obtain ⟨sites, hs, h⟩ := h
      injection h with h
      subst h
      cases hd : dictGet kvs "issueLabel" with
      | none => simp [flagsOf, tripIssueLabel, dictGetD, hd, truthy]
      | some v =>
          cases htr : truthy v <;>
            simp [flagsOf, tripIssueLabel, dictGetD, hd, htr]
  | null => simp [collectTrip, pyGetD] at h
  | bool b => simp [collectTrip, pyGetD] at h
  | int n => simp [collectTrip, pyGetD] at h
  | float q => simp [collectTrip, pyGetD] at h
  | str s => simp [collectTrip, pyGetD] at h
  | arr l => simp [collectTrip, pyGetD] at h

theorem collectTrips_flags_aux (trips : List JSON) :
    ∀ agg agg2, trips.foldlM collectTrip agg = .ok agg2 →
      agg2.flags = agg.flags ++ flagsOf trips := by
  induction trips with
  | nil =>
      intro agg agg2 h
      simp only [List.foldlM_nil, pure, Except.pure] at h
      injection h with h
      subst h
      simp [flagsOf]
  | cons t ts ih =>
      intro agg agg2 h
      rw [List.foldlM_cons, bindOk] at h
      obtain ⟨agg1, h1, h2⟩ := h
      have hf1 := collectTrip_flags agg agg1 t h1
      have hf2 := ih agg1 agg2 h2
      rw [hf2, hf1, flagsOf_cons t ts, List.append_assoc]

theorem collectTrips_flags (trips : List JSON) (agg : TripAgg)
    (h : collectTrips trips = .ok agg) : agg.flags = flagsOf trips := by
  have := collectTrips_flags_aux trips ⟨[], [], [], []⟩ agg h
  simpa using this

theorem pyAnyContains_str (sub : String) (flags : List JSON)
    (hstr : ∀ f ∈ flags, ∃ s, f = JSON.str s) :
    pyAnyContains sub flags = .ok (flags.any (flagMatch sub)) := by
  induction flags with
  | nil => rfl
  | cons f fs ih =>
      obtain ⟨s, rfl⟩ := hstr f (List.mem_cons_self f fs)
      simp only [pyAnyContains, pyIn, okBindE, List.any_cons]
      by_cases hc : strContainsSub s sub
      · simp [flagMatch, hc]
      · simp [flagMatch, hc, ih (fun g hg => hstr g (List.mem_cons_of_mem _ hg))]

theorem any_str_contains (sub : String) (flags : List JSON) :
    (flags.any (flagMatch sub) = true) ↔
    (∃ s, JSON.str s ∈ flags ∧ strContainsSub s sub = true) := by
  rw [List.any_eq_true]
  constructor
  · rintro ⟨f, hf, hp⟩
    cases f <;> first | exact ⟨_, hf, hp⟩ | simp [flagMatch] at hp
  · rintro ⟨s, hs, hc⟩
    exact ⟨.str s, hs, hc⟩

theorem mem_flagsOf (trips : List JSON) (s : String) :
    (JSON.str s ∈ flagsOf trips) ↔
      (∃ t ∈ trips, tripIssueLabel t = some (JSON.str s) ∧ s ≠ "") := by
  simp only [flagsOf, List.mem_filterMap]
  constructor
  · rintro ⟨t, ht, hf⟩
    rcases hl : tripIssueLabel t with _ | v
    · rw [hl] at hf; simp at hf
    · rw [hl] at hf
      dsimp only at hf
      by_cases htr : truthy v = true
      · rw [if_pos htr] at hf
        injection hf with hf
        subst hf
        refine ⟨t, ht, hl, ?_⟩
        intro hemp
        subst hemp
        simp [truthy] at htr
      · rw [if_neg htr] at hf; simp at hf
  · rintro ⟨t, ht, hl, hne⟩
    refine ⟨t, ht, ?_⟩
    rw [hl]
    have htr : truthy (JSON.str s) = true := by simp [truthy, hne]
    dsimp only
    rw [if_pos htr]

/-- Claim C9. In the non-empty trips report, the three fixed interpretive
sentences appear in the appended issue section exactly when some trip has
a truthy (non-empty string) `issueLabel` containing `"car_issue"`,
`"site"`, or `"mixed"` respectively as a LITERAL SUBSTRING (so a label
containing `"onsite"` triggers the site sentence), and the section is
empty when no trip has a non-empty label. -/
theorem trips_issue_sentences (q : String) (trips : List JSON) (ls : List String)
    (hok : analyze_trips_lines q trips = .ok ls)
    (hstr : ∀ f ∈ flagsOf trips, ∃ s, f = JSON.str s) :
    ∃ main issue, ls = main ++ issue ∧
      issueInterp (flagsOf trips) = .ok issue ∧
      ((carIssueSentence ∈ issue) ↔
        (∃ s, JSON.str s ∈ flagsOf trips ∧ strContainsSub s "car_issue" = true)) ∧
      ((siteIssueSentence ∈ issue) ↔
        (∃ s, JSON.str s ∈ flagsOf trips ∧ strContainsSub s "site" = true)) ∧
      ((mixedIssueSentence ∈ issue) ↔
        (∃ s, JSON.str s ∈ flagsOf trips ∧ strContainsSub s "mixed" = true)) ∧
      (flagsOf trips = [] → issue = []) ∧
      (∀ s, (JSON.str s ∈ flagsOf trips) ↔
        (∃ t ∈ trips, tripIssueLabel t = some (JSON.str s) ∧ s ≠ "")) := by
  simp only [analyze_trips_lines] at hok
  rw [bindOk] at hok; obtain ⟨plate, hplate, hok⟩ := hok
  rw [bindOk] at hok; obtain ⟨agg, hagg, hok⟩ := hok
  rw [bindOk] at hok; obtain ⟨gmin, hgmin, hok⟩ := hok
  rw [bindOk] at hok; obtain ⟨gmax, hgmax, hok⟩ := hok
  rw [bindOk] at hok; obtain ⟨qs, hqs, hok⟩ := hok
  rw [bindOk] at hok; obtain ⟨ss, hss, hok⟩ := hok
  rw [bindOk] at hok; obtain ⟨joined, hjoined, hok⟩ := hok
  rw [bindOk] at hok; obtain ⟨minS, hminS, hok⟩ := hok
  rw [bindOk] at hok; obtain ⟨maxS, hmaxS, hok⟩ := hok
  rw [bindOk] at hok; obtain ⟨per, hper, hok⟩ := hok
  rw [bindOk] at hok; obtain ⟨issue, hissue, hok⟩ := hok
  injection hok with hok
  subst hok
  have hflags : agg.flags = flagsOf trips := collectTrips_flags trips agg hagg
  rw [hflags] at hissue
  refine ⟨_, issue, rfl, hissue, ?_, ?_, ?_, ?_, mem_flagsOf trips⟩ <;>
  · by_cases hFe : flagsOf trips = []
    · rw [hFe] at hissue
      simp only [issueInterp, List.isEmpty_nil, if_true] at hissue
      injection hissue with hissue
      subst hissue
      simp [hFe]
    · have hne2 : (flagsOf trips).isEmpty = false := by
        simpa [List.isEmpty_iff] using hFe
      simp only [issueInterp, hne2, Bool.false_eq_true, if_false] at hissue
      rw [pyAnyContains_str "car_issue" _ hstr] at hissue
      simp only [okBindE] at hissue
      rw [pyAnyContains_str "site" _ hstr] at hissue
      simp only [okBindE] at hissue
      rw [pyAnyContains_str "mixed" _ hstr] at hissue
      simp only [okBindE] at hissue
      injection hissue with hissue
      subst hissue
      first
        | (rw [← any_str_contains "car_issue" (flagsOf trips)]
           cases hb1 : (flagsOf trips).any (flagMatch "car_issue") <;>
             cases hb2 : (flagsOf trips).any (flagMatch "site") <;>
               cases hb3 : (flagsOf trips).any (flagMatch "mixed") <;>
                 simp [hb1, hb2, hb3] <;> decide)
        | (rw [← any_str_contains "site" (flagsOf trips)]
           cases hb1 : (flagsOf trips).any (flagMatch "car_issue") <;>
             cases hb2 : (flagsOf trips).any (flagMatch "site") <;>
               cases hb3 : (flagsOf trips).any (flagMatch "mixed") <;>
                 simp [hb1, hb2, hb3] <;> decide)
        | (rw [← any_str_contains "mixed" (flagsOf trips)]
           cases hb1 : (flagsOf trips).any (flagMatch "car_issue") <;>
             cases hb2 : (flagsOf trips).any (flagMatch "site") <;>
               cases hb3 : (flagsOf trips).any (flagMatch "mixed") <;>
                 simp [hb1, hb2, hb3] <;> decide)
        | (intro hcon; exact absurd hcon hFe)

theorem trips_issue_sentences_witness :
    ∃ main issue, tripsWLines = main ++ issue ∧
      issueInterp (flagsOf tripsW) = .ok issue ∧
      ((carIssueSentence ∈ issue) ↔
        (∃ s, JSON.str s ∈ flagsOf tripsW ∧ strContainsSub s "car_issue" = true)) ∧
      ((siteIssueSentence ∈ issue) ↔
        (∃ s, JSON.str s ∈ flagsOf tripsW ∧ strContainsSub s "site" = true)) ∧
      ((mixedIssueSentence ∈ issue) ↔
        (∃ s, JSON.str s ∈ flagsOf tripsW ∧ strContainsSub s "mixed" = true)) ∧
      (flagsOf tripsW = [] → issue = []) ∧
      (∀ s, (JSON.str s ∈ flagsOf tripsW) ↔
        (∃ t ∈ tripsW, tripIssueLabel t = some (JSON.str s) ∧ s ≠ "")) :=
  trips_issue_sentences "Q" tripsW tripsWLines (by with_unfolding_all rfl)
    (by
      intro f hf
      rw [show flagsOf tripsW = [JSON.str "onsite_check"] from rfl] at hf
      exact ⟨"onsite_check", List.mem_singleton.mp hf⟩)

theorem getD_num (kvs : List (String × JSON)) (k : String) (d : JSON)
    (hd : numericJ d = true) (h : numIfPresent kvs k = true) :
    numericJ (dictGetD kvs k d) = true := by
  rcases hg : dictGet kvs k with _ | v
  · simpa [dictGetD, hg] using hd
  · rw [numIfPresent, hg] at h
    simpa [dictGetD, hg] using h

theorem fmtComma_ok (v : JSON) (h : numericJ v = true) : ∃ s, fmtComma v = .ok s := by
  cases v with
  | int n => exact ⟨_, rfl⟩
  | bool b => exact ⟨_, rfl⟩
  | float q => exact ⟨_, rfl⟩
  | null => simp [numericJ, scalarNum?] at h
  | str s => simp [numericJ, scalarNum?] at h
  | arr l => simp [numericJ, scalarNum?] at h
  | obj l => simp [numericJ, scalarNum?] at h

theorem fmtFixed_ok (nd : ℕ) (v : JSON) (h : numericJ v = true) :
    ∃ s, fmtFixed nd v = .ok s := by
  cases v with
  | int n => exact ⟨_, rfl⟩
  | bool b => exact ⟨_, rfl⟩
  | float q => exact ⟨_, rfl⟩
  | null => simp [numericJ, scalarNum?] at h
  | str s => simp [numericJ, scalarNum?] at h
  | arr l => simp [numericJ, scalarNum?] at h
  | obj l => simp [numericJ, scalarNum?] at h

theorem pyGE_ok (v : JSON) (c : ℚ) (h : numericJ v = true) : ∃ b, pyGE v c = .ok b := by
  rcases hx : scalarNum? v with _ | x
  · rw [numericJ, hx] at h; simp at h
  · exact ⟨decide (c ≤ x), by simp [pyGE, hx]⟩

theorem pyLtC_ok (v : JSON) (c : ℚ) (h : numericJ v = true) : ∃ b, pyLtC v c = .ok b := by
  rcases hx : scalarNum? v with _ | x
  · rw [numericJ, hx] at h; simp at h
  · exact ⟨decide (x < c), by simp [pyLtC, hx]⟩

theorem pyChain_ok (lo : ℚ) (v : JSON) (hi : ℚ) (h : numericJ v = true) :
    ∃ b, pyChain lo v hi = .ok b := by
  obtain ⟨a, ha⟩ := pyGE_ok v lo h
  cases a with
  | false => exact ⟨false, by simp [pyChain, ha]⟩
  | true =>
      obtain ⟨b, hb⟩ := pyLtC_ok v hi h
      exact ⟨b, by simp [pyChain, ha, hb]⟩

theorem truthy_num_ne_zero (w : JSON) (xw : ℚ)
    (hsw : scalarNum? w = some xw) (ht : truthy w = true) : xw ≠ 0 := by
  cases w with
  | bool b =>
      cases b
      · simp [truthy] at ht
      · simp only [scalarNum?, Option.some.injEq] at hsw
        rw [← hsw]; norm_num
  | int n =>
      simp only [scalarNum?, Option.some.injEq] at hsw
      subst hsw
      simp only [truthy, Bool.not_eq_eq_eq_not, Bool.not_true, beq_eq_false_iff_ne,
        ne_eq] at ht
      exact_mod_cast ht
  | float q =>
      simp only [scalarNum?, Option.some.injEq] at hsw
      subst hsw
      simpa [truthy] using ht
  | null => simp [scalarNum?] at hsw
  | str s => simp [scalarNum?] at hsw
  | arr l => simp [scalarNum?] at hsw
  | obj l => simp [scalarNum?] at hsw

theorem pct_ok (a w : JSON) (ha : numericJ a = true) (hw : numericJ w = true) :
    ∃ x, pct a w = .ok x := by
  by_cases ht : truthy w = true
  · rcases hsa : scalarNum? a with _ | xa
    · rw [numericJ, hsa] at ha; simp at ha
    · rcases hsw : scalarNum? w with _ | xw
      · rw [numericJ, hsw] at hw; simp at hw
      · have hnz : xw ≠ 0 := truthy_num_ne_zero w xw hsw ht
        exact ⟨round1 (100 * xa / xw),
          by simp [pct, ht, pyMulF, hsa, pyDivNum, hsw, hnz]⟩
  · have ht2 : truthy w = false := by simpa using ht
    exact ⟨0, by simp [pct, ht2]⟩

theorem okE_isOk {α : Type} {e : Except PyErr α} (h : ∃ a, e = .ok a) :
    e.isOk = true := by
  obtain ⟨a, ha⟩ := h
  simp [ha]

theorem isOk_bind {α β : Type} {e : Except PyErr α} {f : α → Except PyErr β}
    (he : e.isOk = true) (hf : ∀ a, e = .ok a → (f a).isOk = true) :
    (e >>= f).isOk = true := by
  cases e with
  | ok a => rw [okBindE]; exact hf a rfl
  | error err => simp at he

theorem analyze_error_ok (q : String) (kvs : List (String × JSON)) :
    (analyze_error q (.obj kvs)).isOk = true := rfl

theorem analyze_city_totals_ok (q : String) (kvs : List (String × JSON))
    (h : wfCounts kvs = true) : (analyze_city_totals q (.obj kvs)).isOk = true := by
  rw [wfCounts, Bool.and_eq_true, Bool.and_eq_true] at h
  obtain ⟨⟨h1, h2⟩, h3⟩ := h
  have hu := getD_num kvs "uniqueVehicles" (.int 0) rfl h1
  have had := getD_num kvs "alwaysDegraded" (.int 0) rfl h2
  have hna := getD_num kvs "notAlwaysDegraded" (.int 0) rfl h3
  obtain ⟨p1, hp1⟩ := pct_ok _ _ had hu
  obtain ⟨p2, hp2⟩ := pct_ok _ _ hna hu
  obtain ⟨c1, hc1⟩ := fmtComma_ok _ hu
  obtain ⟨c2, hc2⟩ := fmtComma_ok _ had
  obtain ⟨c3, hc3⟩ := fmtComma_ok _ hna
  simp [analyze_city_totals, pyGetD, hp1, hp2, hc1, hc2, hc3]

theorem analyze_site_totals_ok (q : String) (kvs : List (String × JSON))
    (h : wfCounts kvs = true) : (analyze_site_totals q (.obj kvs)).isOk = true := by
  rw [wfCounts, Bool.and_eq_true, Bool.and_eq_true] at h
  obtain ⟨⟨h1, h2⟩, h3⟩ := h
  have hu := getD_num kvs "uniqueVehicles" (.int 0) rfl h1
  have had := getD_num kvs "alwaysDegraded" (.int 0) rfl h2
  have hna := getD_num kvs "notAlwaysDegraded" (.int 0) rfl h3
  obtain ⟨p1, hp1⟩ := pct_ok _ _ had hu
  obtain ⟨p2, hp2⟩ := pct_ok _ _ hna hu
  obtain ⟨c1, hc1⟩ := fmtComma_ok _ hu
  obtain ⟨c2, hc2⟩ := fmtComma_ok _ had
  obtain ⟨c3, hc3⟩ := fmtComma_ok _ hna
  simp [analyze_site_totals, pyGetD, hp1, hp2, hc1, hc2, hc3]

theorem optPy_num (kvs : List (String × JSON)) (k : String)
    (h : numOrNullIfPresent kvs k = true) :
    ∀ g, optPy (dictGet kvs k) = some g → numericJ g = true := by
  intro g hg
  rcases hd : dictGet kvs k with _ | v
  · rw [hd] at hg; simp [optPy] at hg
  · rw [hd] at hg
    rw [numOrNullIfPresent, hd] at h
    cases v with
    | null => simp [optPy] at hg
    | bool b => simp only [optPy] at hg; injection hg with hg; subst hg; exact h
    | int n => simp only [optPy] at hg; injection hg with hg; subst hg; exact h
    | float p => simp only [optPy] at hg; injection hg with hg; subst hg; exact h
    | str s => simp [numericJ, scalarNum?] at h
    | arr l => simp [numericJ, scalarNum?] at h
    | obj l => simp [numericJ, scalarNum?] at h

theorem thresholdQualitative_ok (grp : Option JSON)
    (hg : ∀ g, grp = some g → numericJ g = true) :
    (thresholdQualitative grp).isOk = true := by
  rcases grp with _ | g
  · rfl
  · have hgn := hg g rfl
    obtain ⟨b1, hb1⟩ := pyGE_ok g 90 hgn
    obtain ⟨b2, hb2⟩ := pyGE_ok g 80 hgn
    obtain ⟨b3, hb3⟩ := pyGE_ok g 60 hgn
    cases b1 <;> cases b2 <;> cases b3 <;>
      simp [thresholdQualitative, hb1, hb2, hb3]

theorem siteDayQualitative_ok (status : JSON) (grp : Option JSON)
    (hg : ∀ g, grp = some g → numericJ g = true) :
    (siteDayQualitative status grp).isOk = true := by
  cases hs : strEqJ status "unknown" <;>
    simp [siteDayQualitative, hs, thresholdQualitative_ok grp hg]

theorem siteDayExtra_ok (g : JSON) (hgn : numericJ g = true) :
    (siteDayExtra g).isOk = true := by
  obtain ⟨b1, hb1⟩ := pyGE_ok g 90 hgn
  obtain ⟨b2, hb2⟩ := pyChain_ok 80 g 90 hgn
  obtain ⟨b3, hb3⟩ := pyChain_ok 60 g 80 hgn
  cases b1 <;> cases b2 <;> cases b3 <;>
    simp [siteDayExtra, hb1, hb2, hb3]

theorem analyze_site_day_lines_ok (q : String) (kvs : List (String × JSON))
    (h : wfSiteDay kvs = true) :
    (analyze_site_day_status_lines q (.obj kvs)).isOk = true := by
  rw [wfSiteDay, Bool.and_eq_true, Bool.and_eq_true, Bool.and_eq_true] at h
  obtain ⟨⟨⟨h1, h2⟩, h3⟩, h4⟩ := h
  have htot := getD_num kvs "detectionsTotal" (.int 0) rfl h1
  have hgood := getD_num kvs "detectionsGood" (.int 0) rfl h2
  have hbad := getD_num kvs "detectionsBad" (.int 0) rfl h3
  simp only [analyze_site_day_status_lines, pyGetD, pyGetOpt, okBindE]
  apply isOk_bind
  · rw [recomputeGoodRate]
    split
    · obtain ⟨p, hp⟩ := pct_ok _ _ hgood htot
      simp [hp, pure, Except.pure]
    · simp [pure, Except.pure]
  · intro grp hgrp
    have hgnum : ∀ g, grp = some g → numericJ g = true := by
      intro g hg
      rw [recomputeGoodRate] at hgrp
      split at hgrp
      · rw [bindOk] at hgrp
        obtain ⟨p, hp, hgrp⟩ := hgrp
        simp only [pure, Except.pure] at hgrp
        injection hgrp with hgrp
        rw [← hgrp] at hg
        injection hg with hg
        subst hg
        rfl
      · simp only [pure, Except.pure] at hgrp
        injection hgrp with hgrp
        rw [← hgrp] at hg
        exact optPy_num kvs "goodRatePct" h4 g hg
    apply isOk_bind (siteDayQualitative_ok _ _ hgnum)
    intro qual hqual
    apply isOk_bind (okE_isOk (fmtComma_ok _ htot))
    intro t1 ht1
    apply isOk_bind (okE_isOk (fmtComma_ok _ hgood))
    intro t2 ht2
    apply isOk_bind (okE_isOk (fmtComma_ok _ hbad))
    intro t3 ht3
    have hgetd : numericJ (grp.getD (.int 0)) = true := by
      rcases grp with _ | g
      · rfl
      · exact hgnum g rfl
    apply isOk_bind (okE_isOk (fmtFixed_ok 1 _ hgetd))
    intro t4 ht4
    have hextra : (siteDayExtraOf grp).isOk = true := by
      rcases grp with _ | g
      · rfl
      · exact siteDayExtra_ok g (hgnum g rfl)
    apply isOk_bind hextra
    intro ex hex
    rfl

theorem analyze_vehicle_ok (q : String) (kvs : List (String × JSON))
    (h : wfVehicle kvs = true) :
    (analyze_vehicle_degrade q (.obj kvs)).isOk = true := by
  rw [wfVehicle, Bool.and_eq_true, Bool.and_eq_true] at h
  obtain ⟨⟨h1, h2⟩, h3⟩ := h
  have hmin := getD_num kvs "cumMinQ" (.float 0) rfl h1
  have hmax := getD_num kvs "cumMaxQ" (.float 0) rfl h2
  have hfr := getD_num kvs "cumNFrames" (.int 0) rfl h3
  obtain ⟨c1, hc1⟩ := fmtComma_ok _ hfr
  obtain ⟨f1, hf1⟩ := fmtFixed_ok 3 _ hmin
  obtain ⟨f2, hf2⟩ := fmtFixed_ok 3 _ hmax
  simp [analyze_vehicle_degrade, pyGetD, hc1, hf1, hf2]

theorem isOk_exists {α : Type} {e : Except PyErr α} (h : e.isOk = true) :
    ∃ a, e = .ok a := by
  cases e with
  | ok a => exact ⟨a, rfl⟩
  | error err => simp at h

theorem all_isStrJ_exists (l : List JSON) (h : l.all isStrJ = true) :
    ∃ sl : List String, l = sl.map JSON.str := by
  induction l with
  | nil => exact ⟨[], rfl⟩
  | cons x xs ih =>
      rw [List.all_cons, Bool.and_eq_true] at h
      obtain ⟨hx, hxs⟩ := h
      obtain ⟨sl, rfl⟩ := ih hxs
      cases x with
      | str s => exact ⟨s :: sl, rfl⟩
      | null => simp [isStrJ] at hx
      | bool b => simp [isStrJ] at hx
      | int n => simp [isStrJ] at hx
      | float p => simp [isStrJ] at hx
      | arr es => simp [isStrJ] at hx
      | obj fs => simp [isStrJ] at hx

theorem all_isStrJ_forall (l : List JSON) (h : l.all isStrJ = true) :
    ∀ f ∈ l, ∃ s, f = JSON.str s := by
  intro f hf
  rw [List.all_eq_true] at h
  have := h f hf
  cases f <;> simp [isStrJ] at this ⊢

theorem siteList_iter_ok (v : JSON) (h : wfSiteListVal v = true) :
    ∃ elems, pyIter (pyOr v (.arr [])) = .ok elems ∧ elems.all isStrJ = true := by
  cases v with
  | arr es =>
      by_cases ht : truthy (.arr es) = true
      · exact ⟨es, by simp [pyOr, ht, pyIter], by simpa [wfSiteListVal] using h⟩
      · have ht2 : truthy (.arr es) = false := by simpa using ht
        exact ⟨[], by simp [pyOr, ht2, pyIter], rfl⟩
  | str s =>
      by_cases ht : truthy (.str s) = true
      · refine ⟨s.toList.map (fun c => JSON.str (String.singleton c)),
          by simp [pyOr, ht, pyIter], ?_⟩
        rw [List.all_eq_true]
        intro x hx
        obtain ⟨c, hc, rfl⟩ := List.mem_map.mp hx
        rfl
      · have ht2 : truthy (.str s) = false := by simpa using ht
        exact ⟨[], by simp [pyOr, ht2, pyIter], rfl⟩
  | obj kvs =>
      by_cases ht : truthy (.obj kvs) = true
      · refine ⟨kvs.map (fun kv => JSON.str kv.1),
          by simp [pyOr, ht, pyIter], ?_⟩
        rw [List.all_eq_true]
        intro x hx
        obtain ⟨kv, hkv, rfl⟩ := List.mem_map.mp hx
        rfl
      · have ht2 : truthy (.obj kvs) = false := by simpa using ht
        exact ⟨[], by simp [pyOr, ht2, pyIter], rfl⟩
  | null => exact ⟨[], by simp [pyOr, truthy, pyIter], rfl⟩
  | bool b =>
      cases b
      · exact ⟨[], by simp [pyOr, truthy, pyIter], rfl⟩
      · simp [wfSiteListVal, truthy] at h
  | int n =>
      have ht2 : truthy (.int n) = false := by simpa [wfSiteListVal] using h
      exact ⟨[], by simp [pyOr, ht2, pyIter], rfl⟩
  | float p =>
      have ht2 : truthy (.float p) = false := by simpa [wfSiteListVal] using h
      exact ⟨[], by simp [pyOr, ht2, pyIter], rfl⟩

theorem pySetAddAll_ok (elems : List JSON) :
    ∀ s, s.all isStrJ = true → elems.all isStrJ = true →
      ∃ s2, pySetAddAll s elems = .ok s2 ∧ s2.all isStrJ = true := by
  induction elems with
  | nil => intro s hs _; exact ⟨s, rfl, hs⟩
  | cons x xs ih =>
      intro s hs hxs
      rw [List.all_cons, Bool.and_eq_true] at hxs
      obtain ⟨hx, hxs2⟩ := hxs
      obtain ⟨sx, rfl⟩ : ∃ t, x = JSON.str t := by
        cases x <;> simp [isStrJ] at hx ⊢
      have hs1 : (if s.any (scalarEq (.str sx)) then s else s ++ [JSON.str sx]).all isStrJ
          = true := by
        split
        · exact hs
        · rw [List.all_append, Bool.and_eq_true]
          exact ⟨hs, rfl⟩
      obtain ⟨s2, h2, hs2⟩ := ih _ hs1 hxs2
      refine ⟨s2, ?_, hs2⟩
      simp only [pySetAddAll, pySetAdd, hashable, if_true, okBindE]
      exact h2

theorem pyLt_ok_num (a b : JSON) (ha : numericJ a = true) (hb : numericJ b = true) :
    ∃ r, pyLt a b = .ok r := by
  cases a <;> cases b <;>
    first
      | exact ⟨_, rfl⟩
      | simp [numericJ, scalarNum?] at ha hb

theorem pyMinFold_ok (xs : List JSON) :
    ∀ m, numericJ m = true → xs.all numericJ = true →
      ∃ r, pyMinFold m xs = .ok r ∧ numericJ r = true := by
  induction xs with
  | nil => intro m hm _; exact ⟨m, rfl, hm⟩
  | cons x xs ih =>
      intro m hm hxs
      rw [List.all_cons, Bool.and_eq_true] at hxs
      obtain ⟨hx, hxs2⟩ := hxs
      obtain ⟨b, hb⟩ := pyLt_ok_num x m hx hm
      have hnext : numericJ (if b then x else m) = true := by
        cases b <;> simp [hx, hm]
      obtain ⟨r, hr, hrn⟩ := ih _ hnext hxs2
      exact ⟨r, by simp [pyMinFold, hb, hr], hrn⟩

theorem pyMaxFold_ok (xs : List JSON) :
    ∀ m, numericJ m = true → xs.all numericJ = true →
      ∃ r, pyMaxFold m xs = .ok r ∧ numericJ r = true := by
  induction xs with
  | nil => intro m hm _; exact ⟨m, rfl, hm⟩
  | cons x xs ih =>
      intro m hm hxs
      rw [List.all_cons, Bool.and_eq_true] at hxs
      obtain ⟨hx, hxs2⟩ := hxs
      obtain ⟨b, hb⟩ := pyLt_ok_num m x hm hx
      have hnext : numericJ (if b then x else m) = true := by
        cases b <;> simp [hx, hm]
      obtain ⟨r, hr, hrn⟩ := ih _ hnext hxs2
      exact ⟨r, by simp [pyMaxFold, hb, hr], hrn⟩

theorem pyMinOf_ok (xs : List JSON) (h : xs.all numericJ = true) :
    ∃ r, pyMinOf xs = .ok r ∧ numericJ r = true := by
  cases xs with
  | nil => exact ⟨.float 0, rfl, rfl⟩
  | cons x rest =>
      rw [List.all_cons, Bool.and_eq_true] at h
      exact pyMinFold_ok rest x h.1 h.2

theorem pyMaxOf_ok (xs : List JSON) (h : xs.all numericJ = true) :
    ∃ r, pyMaxOf xs = .ok r ∧ numericJ r = true := by
  cases xs with
  | nil => exact ⟨.float 0, rfl, rfl⟩
  | cons x rest =>
      rw [List.all_cons, Bool.and_eq_true] at h
      exact pyMaxFold_ok rest x h.1 h.2

theorem qualSummary_ok (g : JSON) (hg : numericJ g = true) :
    (qualSummary g).isOk = true := by
  obtain ⟨b1, hb1⟩ := pyGE_ok g (7 / 10) hg
  obtain ⟨b2, hb2⟩ := pyGE_ok g (1 / 2) hg
  obtain ⟨b3, hb3⟩ := pyGE_ok g (3 / 10) hg
  rw [one_div] at hb2
  cases b1 <;> cases b2 <;> cases b3 <;> simp [qualSummary, hb1, hb2, hb3]

theorem asStrList_ok (l : List JSON) (h : l.all isStrJ = true) :
    ∃ sl, asStrList l = .ok sl := by
  obtain ⟨sl, rfl⟩ := all_isStrJ_exists l h
  induction sl with
  | nil => exact ⟨[], rfl⟩
  | cons s ss ih =>
      have hss : (List.map JSON.str ss).all isStrJ = true := by
        rw [List.all_eq_true]
        intro x hx
        obtain ⟨c, hc, rfl⟩ := List.mem_map.mp hx
        rfl
      obtain ⟨sl2, h2⟩ := ih hss
      exact ⟨s :: sl2, by simp [asStrList, h2]⟩

theorem pyJoin_ok (sep : String) (l : List JSON) (h : l.all isStrJ = true) :
    ∃ s, pyJoin sep l = .ok s := by
  obtain ⟨sl, hsl⟩ := asStrList_ok l h
  exact ⟨sep.intercalate sl, by simp [pyJoin, hsl]⟩

theorem pySorted_ok (l : List JSON) (h : l.all isStrJ = true) :
    ∃ l2, pySorted l = .ok l2 ∧ l2.all isStrJ = true := by
  obtain ⟨sl, rfl⟩ := all_isStrJ_exists l h
  refine ⟨(sortStrs sl).map JSON.str, pySorted_str sl, ?_⟩
  rw [List.all_eq_true]
  intro x hx
  obtain ⟨c, hc, rfl⟩ := List.mem_map.mp hx
  rfl

@[simp]
theorem mapOkE {α β : Type} (f : α → β) (a : α) :
    (f <$> (Except.ok a : Except PyErr α)) = .ok (f a) := rfl

theorem collectTrip_ok (agg : TripAgg) (t : JSON)
    (ht : wfTrip t = true) (ha : aggWF agg = true) :
    ∃ agg2, collectTrip agg t = .ok agg2 ∧ aggWF agg2 = true := by
  cases t with
  | obj kvs =>
      rw [wfTrip, Bool.and_eq_true, Bool.and_eq_true, Bool.and_eq_true] at ht
      obtain ⟨⟨⟨hsl, hmn⟩, hmx⟩, hil⟩ := ht
      rw [aggWF, Bool.and_eq_true, Bool.and_eq_true, Bool.and_eq_true] at ha
      obtain ⟨⟨⟨has, ham⟩, hax⟩, haf⟩ := ha
      have hv : wfSiteListVal (dictGetD kvs "siteList" (.arr [])) = true := by
        rcases hd : dictGet kvs "siteList" with _ | v
        · simp [dictGetD, hd, wfSiteListVal]
        · simp only [hd] at hsl
          simpa [dictGetD, hd] using hsl
      obtain ⟨elems, hiter, helems⟩ := siteList_iter_ok _ hv
      obtain ⟨sites2, hadd, hsites2⟩ := pySetAddAll_ok elems agg.sites has helems
      have hmnv := getD_num kvs "minQuality" (.float 0) rfl hmn
      have hmxv := getD_num kvs "maxQuality" (.float 0) rfl hmx
      have hflag : (if truthy (dictGetD kvs "issueLabel" .null) = true
          then [dictGetD kvs "issueLabel" .null] else []).all isStrJ = true := by
        rcases hd : dictGet kvs "issueLabel" with _ | v
        · simp [dictGetD, hd, truthy]
        · simp only [hd] at hil
          cases v with
          | str s =>
              simp only [dictGetD, hd, Option.getD]
              split <;> simp [isStrJ]
          | null => simp [dictGetD, hd, truthy]
          | bool b =>
              have hb : truthy (.bool b) = false := by simpa using hil
              simp [dictGetD, hd, hb]
          | int n =>
              have hb : truthy (.int n) = false := by simpa using hil
              simp [dictGetD, hd, hb]
          | float p =>
              have hb : truthy (.float p) = false := by simpa using hil
              simp [dictGetD, hd, hb]
          | arr l =>
              have hb : truthy (.arr l) = false := by simpa using hil
              simp [dictGetD, hd, hb]
          | obj l =>
              have hb : truthy (.obj l) = false := by simpa using hil
              simp [dictGetD, hd, hb]
      refine ⟨⟨sites2, agg.minQs ++ [dictGetD kvs "minQuality" (.float 0)],
        agg.maxQs ++ [dictGetD kvs "maxQuality" (.float 0)],
        agg.flags ++ (if truthy (dictGetD kvs "issueLabel" .null) = true
          then [dictGetD kvs "issueLabel" .null] else [])⟩, ?_, ?_⟩
      · simp only [collectTrip, pyGetD, okBindE]
        rw [hiter]
        simp only [okBindE]
        rw [hadd]
        simp only [okBindE]
      · rw [aggWF, Bool.and_eq_true, Bool.and_eq_true, Bool.and_eq_true]
        refine ⟨⟨⟨hsites2, ?_⟩, ?_⟩, ?_⟩ <;>
          simp [List.all_append, ham, hax, haf, hmnv, hmxv, hflag]
  | null => simp [wfTrip] at ht
  | bool b => simp [wfTrip] at ht
  | int n => simp [wfTrip] at ht
  | float p => simp [wfTrip] at ht
  | str s => simp [wfTrip] at ht
  | arr l => simp [wfTrip] at ht

theorem collectTrips_ok_aux (ts : List JSON) :
    ∀ agg, wfTrips ts = true → aggWF agg = true →
      ∃ agg2, ts.foldlM collectTrip agg = .ok agg2 ∧ aggWF agg2 = true := by
  induction ts with
  | nil => intro agg _ ha; exact ⟨agg, rfl, ha⟩
  | cons t ts ih =>
      intro agg hw ha
      rw [wfTrips, List.all_cons, Bool.and_eq_true] at hw
      obtain ⟨hwt, hwts⟩ := hw
      obtain ⟨agg1, h1, ha1⟩ := collectTrip_ok agg t hwt ha
      obtain ⟨agg2, h2, ha2⟩ := ih agg1 (by rwa [wfTrips]) ha1
      exact ⟨agg2, by simp [List.foldlM_cons, h1, h2], ha2⟩

theorem collectTrips_ok (ts : List JSON) (h : wfTrips ts = true) :
    ∃ agg, collectTrips ts = .ok agg ∧ aggWF agg = true :=
  collectTrips_ok_aux ts ⟨[], [], [], []⟩ h rfl

theorem tripLine_ok (idx : ℕ) (t : JSON) (ht : wfTrip t = true) :
    (tripLine idx t).isOk = true := by
  cases t with
  | obj kvs =>
      rw [wfTrip, Bool.and_eq_true, Bool.and_eq_true, Bool.and_eq_true] at ht
      obtain ⟨⟨⟨hsl, hmn⟩, hmx⟩, hil⟩ := ht
      have hv : wfSiteListVal (dictGetD kvs "siteList" (.arr [])) = true := by
        rcases hd : dictGet kvs "siteList" with _ | v
        · simp [dictGetD, hd, wfSiteListVal]
        · simp only [hd] at hsl
          simpa [dictGetD, hd] using hsl
      obtain ⟨elems, hiter, helems⟩ := siteList_iter_ok _ hv
      obtain ⟨js, hjs⟩ := pyJoin_ok "," elems helems
      obtain ⟨f1, hf1⟩ := fmtFixed_ok 3 _ (getD_num kvs "minQuality" (.float 0) rfl hmn)
      obtain ⟨f2, hf2⟩ := fmtFixed_ok 3 _ (getD_num kvs "maxQuality" (.float 0) rfl hmx)
      simp [tripLine, pyGetD, hf1, hf2, pyJoinIter, hiter, hjs]
  | null => simp [wfTrip] at ht
  | bool b => simp [wfTrip] at ht
  | int n => simp [wfTrip] at ht
  | float p => simp [wfTrip] at ht
  | str s => simp [wfTrip] at ht
  | arr l => simp [wfTrip] at ht

theorem tripLinesFrom_ok (ts : List JSON) :
    ∀ idx, wfTrips ts = true → (tripLinesFrom idx ts).isOk = true := by
  induction ts with
  | nil => intro idx _; rfl
  | cons t ts ih =>
      intro idx h
      rw [wfTrips, List.all_cons, Bool.and_eq_true] at h
      obtain ⟨hwt, hwts⟩ := h
      obtain ⟨l, hl⟩ := isOk_exists (tripLine_ok idx t hwt)
      obtain ⟨rest, hrest⟩ := isOk_exists (ih (idx + 1) (by simpa [wfTrips] using hwts))
      simp [tripLinesFrom, hl, hrest]

theorem issueInterp_ok (flags : List JSON) (h : flags.all isStrJ = true) :
    (issueInterp flags).isOk = true := by
  cases he : flags.isEmpty
  · have hstr := all_isStrJ_forall flags h
    simp [issueInterp, he, pyAnyContains_str "car_issue" flags hstr,
      pyAnyContains_str "site" flags hstr, pyAnyContains_str "mixed" flags hstr]
  · simp [issueInterp, he]

theorem analyze_trips_lines_ok (q : String) (ts : List JSON)
    (hw : wfTrips ts = true) (hne : ts ≠ []) :
    (analyze_trips_lines q ts).isOk = true := by
  cases ts with
  | nil => exact absurd rfl hne
  | cons t0 rest =>
      have hw0 := hw
      rw [wfTrips, List.all_cons, Bool.and_eq_true] at hw0
      obtain ⟨hwt0, _⟩ := hw0
      obtain ⟨kvs0, rfl⟩ : ∃ kvs0, t0 = JSON.obj kvs0 := by
        cases t0 with
        | obj k => exact ⟨k, rfl⟩
        | null => simp [wfTrip] at hwt0
        | bool b => simp [wfTrip] at hwt0
        | int n => simp [wfTrip] at hwt0
        | float p => simp [wfTrip] at hwt0
        | str s => simp [wfTrip] at hwt0
        | arr l => simp [wfTrip] at hwt0
      obtain ⟨agg, hagg, hawf⟩ := collectTrips_ok _ hw
      rw [aggWF, Bool.and_eq_true, Bool.and_eq_true, Bool.and_eq_true] at hawf
      obtain ⟨⟨⟨hsJ, hmnJ⟩, hmxJ⟩, hfJ⟩ := hawf
      obtain ⟨gmin, hgmin, hgminN⟩ := pyMinOf_ok _ hmnJ
      obtain ⟨gmax, hgmax, hgmaxN⟩ := pyMaxOf_ok _ hmxJ
      obtain ⟨qs, hqs⟩ := isOk_exists (qualSummary_ok _ hgminN)
      obtain ⟨ss, hss, hssJ⟩ := pySorted_ok _ hsJ
      obtain ⟨joined, hjoin⟩ := pyJoin_ok ", " ss hssJ
      obtain ⟨m1, hm1⟩ := fmtFixed_ok 3 _ hgminN
      obtain ⟨m2, hm2⟩ := fmtFixed_ok 3 _ hgmaxN
      obtain ⟨per, hper⟩ := isOk_exists (tripLinesFrom_ok _ 1 hw)
      obtain ⟨issue, hiss⟩ := isOk_exists (issueInterp_ok _ hfJ)
      simp [analyze_trips_lines, pyGetD, hagg, hgmin, hgmax, hqs, hss, hjoin,
        hm1, hm2, hper, hiss]

theorem analyze_trips_ok (q : String) (ts : List JSON) (hw : wfTrips ts = true) :
    (analyze_trips q ts).isOk = true := by
  cases ts with
  | nil => rfl
  | cons t0 rest =>
      obtain ⟨ls, hls⟩ := isOk_exists
        (analyze_trips_lines_ok q (t0 :: rest) hw (by simp))
      simp [analyze_trips, hls]

theorem detect_arr (ts : List JSON) :
    detect_result_type (.arr ts) = "trips" ∨ detect_result_type (.arr ts) = "unknown" := by
  cases ts with
  | nil => left; rfl
  | cons first rest =>
      cases first <;> simp only [detect_result_type]
      case obj f => split_ifs <;> simp
      all_goals simp

/-- Claim C2 (amended). The pipeline returns a string without raising for
every question and every payload whose recognized-category fields are
well-typed (`wellTypedResult`): numeric counts/qualities, trip elements
that are mappings, site lists iterating to strings, string issue labels.
The claim as stated — for arbitrary value types — is refuted by
`analyze_raises_on_ill_typed` below. -/
theorem analyze_result_ok (q : String) (r : JSON)
    (h : wellTypedResult r = true) : (analyze_result q r).isOk = true := by
  cases r with
  | null => rfl
  | bool b => rfl
  | int n => rfl
  | float p => rfl
  | str s => rfl
  | obj kvs =>
      rw [wellTypedResult] at h
      by_cases he : hasKey kvs "error" = true
      · have hd : detect_result_type (.obj kvs) = "error" := by
          simp [detect_result_type, he]
        simp only [analyze_result, hd]
        simpa using analyze_error_ok q kvs
      · have he2 : hasKey kvs "error" = false := by simpa using he
        rw [if_neg (by simp [he2])] at h
        by_cases hu : hasKey kvs "uniqueVehicles" = true
        · rw [if_pos hu] at h
          by_cases hs : hasKey kvs "site" = true
          · have hd : detect_result_type (.obj kvs) = "site_totals" := by
              simp [detect_result_type, he2, hu, hs]
            simp only [analyze_result, hd]
            simpa using analyze_site_totals_ok q kvs h
          · have hs2 : hasKey kvs "site" = false := by simpa using hs
            have hd : detect_result_type (.obj kvs) = "city_totals" := by
              simp [detect_result_type, he2, hu, hs2]
            simp only [analyze_result, hd]
            simpa using analyze_city_totals_ok q kvs h
        · have hu2 : hasKey kvs "uniqueVehicles" = false := by simpa using hu
          rw [if_neg (by simp [hu2])] at h
          by_cases ht : (hasKey kvs "detectionsTotal" && hasKey kvs "detectionsGood"
              && hasKey kvs "detectionsBad") = true
          · rw [if_pos ht] at h
            have hd : detect_result_type (.obj kvs) = "site_day_status" := by
              simp only [detect_result_type, he2, hu2]
              simp [ht]
            obtain ⟨ls, hls⟩ := isOk_exists (analyze_site_day_lines_ok q kvs h)
            simp only [analyze_result, hd]
            simp [analyze_site_day_status, hls]
          · have ht2 : (hasKey kvs "detectionsTotal" && hasKey kvs "detectionsGood"
                && hasKey kvs "detectionsBad") = false := by simpa using ht
            rw [if_neg (by simp [ht])] at h
            by_cases hp : (hasKey kvs "plate" && hasKey kvs "cumNFrames") = true
            · rw [if_pos hp] at h
              have hd : detect_result_type (.obj kvs) = "vehicle_degrade" := by
                simp only [detect_result_type, he2, hu2]
                simp [ht2, hp]
              simp only [analyze_result, hd]
              simpa using analyze_vehicle_ok q kvs h
            · have hp2 : (hasKey kvs "plate" && hasKey kvs "cumNFrames") = false := by
                simpa using hp
              have hd : detect_result_type (.obj kvs) = "unknown" := by
                simp only [detect_result_type, he2, hu2]
                simp [ht2, hp2]
              simp [analyze_result, hd]
  | arr ts =>
      rw [wellTypedResult] at h
      rcases detect_arr ts with htr | htr
      · rw [htr] at h
        have h2 : wfTrips ts = true := by simpa using h
        simp [analyze_result, htr, analyze_trips_ok q ts h2]
      · simp [analyze_result, htr]

/-- Counterexample to claim C2 as stated: a payload with a non-numeric
`uniqueVehicles` is classified `city_totals` and the percentage
computation `100.0 * 0 / "abc"` raises `TypeError` — the pipeline does
not return a string. -/
theorem analyze_raises_on_ill_typed :
    analyze_result "q" (.obj [("uniqueVehicles", .str "abc")]) =
      .error .typeError := rfl

theorem analyze_result_ok_witness :
    (analyze_result "How many vehicles?" (.obj [("day", .str "2025-08-16"),
      ("uniqueVehicles", .int 1000), ("alwaysDegraded", .int 15),
      ("notAlwaysDegraded", .int 985)])).isOk = true :=
  analyze_result_ok "How many vehicles?" _ (by decide)
